import Mathlib

/-! EgoSmartHeaterRS485: word codec and register session

A shallow embedding of `src/EgoSmartHeaterRS485.cpp` / `.h`.

Conventions of the embedding

* `uint8_t`, `uint16_t`, `uint32_t` values are natural numbers; `int16_t`, `int32_t`
  values are integers. Every conversion between widths or signedness is written out
  with an explicit modulus.
* The unions of the codec functions overlay a word array and a byte array. The
  library targets little-endian hosts (AVR, ESP8266, ESP32), so a stored 16-bit word
  `w` occupies the two bytes `w % 256` (lower address) and `w / 256 % 256`.
* An Arduino `String` is the list of its character codes.
* The ModbusMaster object `_node` is an external collaborator. It is modelled by its
  two buffers, the list of transactions issued so far and the replies the bus will
  give to the following transactions.
-/

namespace EgoSmartHeaterRS485

/-! ## Machine integers -/

/-- Conversion of an integer to `uint16_t`. -/
def toUint16 (x : Int) : Nat := (x % 65536).toNat

/-- Conversion of an integer to `uint32_t`. -/
def toUint32 (x : Int) : Nat := (x % 4294967296).toNat

/-- Conversion of a bit pattern to `int16_t` (twos complement). -/
def toInt16 (w : Nat) : Int :=
  if w % 65536 < 32768 then ((w % 65536 : Nat) : Int) else ((w % 65536 : Nat) : Int) - 65536

/-- Conversion of a bit pattern to `int32_t` (twos complement). -/
def toInt32 (w : Nat) : Int :=
  if w % 4294967296 < 2147483648 then ((w % 4294967296 : Nat) : Int)
  else ((w % 4294967296 : Nat) : Int) - 4294967296

/-! ## Union memory on a little-endian host -/

/-- The two bytes, in address order, that a stored `uint16_t` occupies. -/
def wordBytes (w : Nat) : List Nat := [w % 256, w / 256 % 256]

/-- Byte view `source.b` of a union after `source.data[i] = data[i]` for `i < n`. -/
def storeWords (data : List Nat) : Nat → List Nat
  | 0 => []
  | n + 1 => storeWords data n ++ wordBytes (data.getD n 0)

/-- Value of a 32-bit member overlaying the four bytes `b[0..3]`. -/
def loadUint32 (b0 b1 b2 b3 : Nat) : Nat :=
  b0 % 256 + (b1 % 256) * 256 + (b2 % 256) * 65536 + (b3 % 256) * 16777216

/-! ## Word codec -/

/-- Source `getModbusUint32(uint16_t data[2])`. -/
def getModbusUint32 (data : List Nat) : Nat :=
  -- source.data[0] = data[0]; source.data[1] = data[1];
  let source := storeWords data 2
  -- dest.b[2] = source.b[0]; dest.b[3] = source.b[1];
  let d2 := source.getD 0 0
  let d3 := source.getD 1 0
  -- dest.b[0] = source.b[2]; dest.b[1] = source.b[3];
  let d0 := source.getD 2 0
  let d1 := source.getD 3 0
  -- return dest.val;
  loadUint32 d0 d1 d2 d3

/-- Source `getModbusInt32(uint16_t data[2])`: same byte moves, `dest.val` is `int32_t`. -/
def getModbusInt32 (data : List Nat) : Int :=
  let source := storeWords data 2
  let d2 := source.getD 0 0
  let d3 := source.getD 1 0
  let d0 := source.getD 2 0
  let d1 := source.getD 3 0
  toInt32 (loadUint32 d0 d1 d2 d3)

/-- The 32-byte view `source.b` that `getModbusString32` scans. -/
def stringBuffer (data : List Nat) : List Nat := storeWords data 16

/-- The scan loop of `getModbusString32`:
`for (int i = 0; (i < 32 && source.b[i] != 0x0); i++) { chr.setCharAt(0, source.b[i]); text.concat(chr); }`
The first argument bounds the number of condition checks. -/
def scanLoop (b : List Nat) : Nat → Nat → List Nat → List Nat
  | 0, _, text => text
  | fuel + 1, i, text =>
    if i < 32 ∧ b.getD i 0 ≠ 0 then
      scanLoop b fuel (i + 1) (text ++ [b.getD i 0])
    else text

/-- Source `getModbusString32(uint16_t data[16])`. The loop condition is checked at most
33 times, since `i` counts up from 0 and the loop stops at `i = 32`. -/
def getModbusString32 (data : List Nat) : List Nat :=
  scanLoop (stringBuffer data) 33 0 []

/-! ## The ModbusMaster collaborator -/

/-- One register transaction handed to the bus. -/
inductive Request where
  | read (address quantity : Nat)
  | write (address quantity : Nat) (words : List Nat)
  deriving DecidableEq, Repr

/-- Answer of the bus to one transaction: the `uint8_t` result code and the content of
the response buffer once the transaction is over. -/
structure Reply where
  code : Nat
  buffer : Nat → Nat

/-- Modelled from the spec: the ModbusMaster class is an external library, absent from
the sources; the spec treats it as an external register transport with
`readRegisters(address, count)` and `writeRegisters(address, words)`. The model keeps
the response buffer, the transmit buffer, the transactions issued so far and, as
`bus n`, the reply the bus gives to transaction number `n`. -/
structure ModbusMaster where
  responseBuffer : Nat → Nat
  transmitBuffer : Nat → Nat
  issued : List Request
  bus : Nat → Reply

/-- Result code `ModbusMaster::ku8MBSuccess`; the header documents `_result` as
"0=Success, 2=Illegal Address, 3=Illegal Value". -/
def ku8MBSuccess : Nat := 0

/-- The reply that the next transaction of this node will receive. -/
def ModbusMaster.nextReply (n : ModbusMaster) : Reply := n.bus n.issued.length

/-- Modelled from the spec: `ModbusMaster::readHoldingRegisters(address, quantity)` of the
external library, the transport read: one read transaction; returns the result code and
leaves the words received in the response buffer. -/
def ModbusMaster.readHoldingRegisters (n : ModbusMaster) (address quantity : Nat) :
    Nat × ModbusMaster :=
  (n.nextReply.code,
    { n with responseBuffer := n.nextReply.buffer,
             issued := n.issued ++ [Request.read address quantity] })

/-- Modelled from the spec: `ModbusMaster::getResponseBuffer(index)` of the external
library, the word at `index` of the response buffer. -/
def ModbusMaster.getResponseBuffer (n : ModbusMaster) (index : Nat) : Nat :=
  n.responseBuffer index

/-- Modelled from the spec: `ModbusMaster::setTransmitBuffer(index, value)` of the
external library, which places one word in the transmit buffer. -/
def ModbusMaster.setTransmitBuffer (n : ModbusMaster) (index value : Nat) : ModbusMaster :=
  { n with transmitBuffer := fun j => if j = index then value else n.transmitBuffer j }

/-- Modelled from the spec: `ModbusMaster::writeMultipleRegisters(address, quantity)` of
the external library, the transport write: one write transaction that sends the first
`quantity` words of the transmit buffer; returns the result code. -/
def ModbusMaster.writeMultipleRegisters (n : ModbusMaster) (address quantity : Nat) :
    Nat × ModbusMaster :=
  (n.nextReply.code,
    { n with issued := n.issued ++
        [Request.write address quantity ((List.range quantity).map n.transmitBuffer)] })

/-- Modelled from the spec: `highWord` is a helper of the ModbusMaster library
(`util/word.h`), absent from the sources; the spec has the encoder split a 32-bit value
into high and low transport words. This is the upper 16 bits of a `uint32_t`. -/
def highWord (ww : Nat) : Nat := ww % 4294967296 / 65536 % 65536

/-- Modelled from the spec: `lowWord` is a helper of the ModbusMaster library
(`util/word.h`), absent from the sources; the lower 16 bits of a `uint32_t`. -/
def lowWord (ww : Nat) : Nat := ww % 4294967296 % 65536

/-! ## Register catalog (`EgoSmartHeaterRS485.h`) -/

def RegisterManufacturerId : Nat := 0x2000
def RegisterProductId : Nat := 0x2001
def RegisterProductVersion : Nat := 0x2002
def RegisterFirmwareVersion : Nat := 0x2003
def RegisterVendorName : Nat := 0x2004
def RegisterProductName : Nat := 0x2014
def RegisterSerialNumber : Nat := 0x2024
def RegisterProductionDate : Nat := 0x2034
def RegisterRelaisConfiguration : List Nat := [0x1000, 0x1020, 0x1040]
def RegisterRelaisCount : Nat := 0x1204
def RegisterTemperatureMinValue : Nat := 0x1209
def RegisterTemperatureMaxValue : Nat := 0x120A
def RegisterTemperatureNominalValue : Nat := 0x120B
def RegisterPowerNominalValue : Nat := 0x1300
def RegisterHomeTotalPower : Nat := 0x1301
def RegisterUserTemperatureNominal : Nat := 0x1407
def RegisterRestartCounter : Nat := 0x1202
def RegisterActualTemperaturePCB : Nat := 0x1205
def RegisterTotalOperatingSeconds : Nat := 0x1400
def RegisterErrorCounter : Nat := 0x1402
def RegisterActualTemperatureBoiler : Nat := 0x1404
def RegisterActualTemperaturExternalSensor1 : Nat := 0x1405
def RegisterActualTemperaturExternalSensor2 : Nat := 0x1406
def RegisterRelaisStatus : Nat := 0x1408
def RegisterRelaisOperatingTime : List Nat := [0x1409, 0x140B, 0x140D]
def RegisterErrorData : List Nat :=
  [0x1500, 0x1504, 0x1508, 0x150C, 0x1510, 0x1514, 0x1518, 0x151C, 0x1520, 0x1524]

/-- Array subscript `table[i]` with an `int` index. Outside the array the behaviour of
the source is undefined, rendered as `none`. -/
def subscript (table : List Nat) (i : Int) : Option Nat :=
  if 0 ≤ i then table.get? i.toNat else none

/-! ## Records returned by the composite reads -/

/-- Source `struct RelaisConfigurationData_t`. -/
structure RelaisConfigurationData_t where
  ActualPower : Nat
  OperatingSeconds : Nat
  SwitchingCycles : Nat
  MinOnTime : Nat
  MinOffTime : Nat
  deriving DecidableEq, Repr

/-- Source `struct ErrorData_t`. -/
structure ErrorData_t where
  OperatingHour : Nat
  OperatingSecond : Nat
  ErrorCode : Nat
  deriving DecidableEq, Repr

/-- Source `struct RelaisOperatingTime_t`. -/
structure RelaisOperatingTime_t where
  OperatingSeconds1 : Nat
  OperatingSeconds2 : Nat
  OperatingSeconds3 : Nat
  deriving DecidableEq, Repr

/-! ## Register session -/

/-- Data members of `class EgoSmartHeaterRS485`. -/
structure Session where
  manualDere : Bool
  _node : ModbusMaster
  _result : Nat

/-- Source `clearErrCode()`. -/
def clearErrCode (s : Session) : Session :=
  { s with _result := ku8MBSuccess }

/-- Source `getErrCode(bool _clear)`. -/
def getErrCode (s : Session) (_clear : Bool) : Nat × Session :=
  let _tmp := s._result
  if _clear = true then (_tmp, clearErrCode s) else (_tmp, s)

/-- The statement `_result = _node.readHoldingRegisters(address, quantity);`. -/
def readInto (s : Session) (address quantity : Nat) : Session :=
  { s with _node := (s._node.readHoldingRegisters address quantity).2,
           _result := (s._node.readHoldingRegisters address quantity).1 }

/-- The statement `_result = _node.writeMultipleRegisters(address, quantity);`. -/
def writeFrom (s : Session) (address quantity : Nat) : Session :=
  { s with _node := (s._node.writeMultipleRegisters address quantity).2,
           _result := (s._node.writeMultipleRegisters address quantity).1 }

/-- The loop `for (j = 0; j < n; j++) data[j] = _node.getResponseBuffer(j);`. -/
def copyResponse (s : Session) (n : Nat) : List Nat :=
  (List.range n).map s._node.getResponseBuffer

/-! ### Basic device information -/

/-- Source `getManufacturerId()`. -/
def getManufacturerId (s : Session) : Nat × Session :=
  let result : Nat := toUint16 (-1)
  let s := readInto s RegisterManufacturerId 1
  if s._result = ku8MBSuccess then (s._node.getResponseBuffer 0, s) else (result, s)

/-- Source `getProductId()`. -/
def getProductId (s : Session) : Nat × Session :=
  let result : Nat := toUint16 (-1)
  let s := readInto s RegisterProductId 1
  if s._result = ku8MBSuccess then (s._node.getResponseBuffer 0, s) else (result, s)

/-- Source `getProductVersion()`. -/
def getProductVersion (s : Session) : Nat × Session :=
  let result : Nat := toUint16 (-1)
  let s := readInto s RegisterProductVersion 1
  if s._result = ku8MBSuccess then (s._node.getResponseBuffer 0, s) else (result, s)

/-- Source `getFirmwareVersion()`. -/
def getFirmwareVersion (s : Session) : Nat × Session :=
  let result : Nat := toUint16 (-1)
  let s := readInto s RegisterFirmwareVersion 1
  if s._result = ku8MBSuccess then (s._node.getResponseBuffer 0, s) else (result, s)

/-- Source `getVendorName()`. -/
def getVendorName (s : Session) : List Nat × Session :=
  let result : List Nat := []
  let s := readInto s RegisterVendorName 16
  if s._result = ku8MBSuccess then (getModbusString32 (copyResponse s 16), s) else (result, s)

/-- Source `getProductName()`. -/
def getProductName (s : Session) : List Nat × Session :=
  let result : List Nat := []
  let s := readInto s RegisterProductName 16
  if s._result = ku8MBSuccess then (getModbusString32 (copyResponse s 16), s) else (result, s)

/-- Source `getSerialNumber()`. -/
def getSerialNumber (s : Session) : List Nat × Session :=
  let result : List Nat := []
  let s := readInto s RegisterSerialNumber 16
  if s._result = ku8MBSuccess then (getModbusString32 (copyResponse s 16), s) else (result, s)

/-- Source `getProductionDate()`. -/
def getProductionDate (s : Session) : Nat × Session :=
  let result : Nat := 0
  let s := readInto s RegisterProductionDate 2
  if s._result = ku8MBSuccess then (getModbusUint32 (copyResponse s 2), s) else (result, s)

/-- Source `getRelaisConfiguration(int r)`. The local `result` is declared without an
initialiser, so its fields start with indeterminate content; that content is the
argument `result`. -/
def getRelaisConfiguration (s : Session) (r : Int) (result : RelaisConfigurationData_t) :
    Option (RelaisConfigurationData_t × Session) :=
  match subscript RegisterRelaisConfiguration r with
  | none => none
  | some address =>
    let s := readInto s address 7
    if s._result = ku8MBSuccess then
      some ({ result with
              ActualPower := s._node.getResponseBuffer 0,
              OperatingSeconds :=
                getModbusUint32 [s._node.getResponseBuffer 1, s._node.getResponseBuffer 2],
              SwitchingCycles :=
                getModbusUint32 [s._node.getResponseBuffer 3, s._node.getResponseBuffer 4],
              MinOnTime := s._node.getResponseBuffer 5,
              MinOffTime := s._node.getResponseBuffer 6 }, s)
    else some (result, s)

/-- Source `getRelaisCount()`. -/
def getRelaisCount (s : Session) : Nat × Session :=
  let result : Nat := toUint16 (-1)
  let s := readInto s RegisterRelaisCount 1
  if s._result = ku8MBSuccess then (s._node.getResponseBuffer 0, s) else (result, s)

/-! ### Configuration information -/

/-- Source `getTemperatureMinValue()`. -/
def getTemperatureMinValue (s : Session) : Nat × Session :=
  let result : Nat := toUint16 (-1)
  let s := readInto s RegisterTemperatureMinValue 1
  if s._result = ku8MBSuccess then (s._node.getResponseBuffer 0, s) else (result, s)

/-- Source `setTemperatureMinValue(uint16_t value)`. -/
def setTemperatureMinValue (s : Session) (value : Nat) : Nat × Session :=
  let s := { s with _node := s._node.setTransmitBuffer 0 value }
  let s := writeFrom s RegisterTemperatureMinValue 1
  (s._result, s)

/-- Source `getTemperatureMaxValue()`. -/
def getTemperatureMaxValue (s : Session) : Nat × Session :=
  let result : Nat := toUint16 (-1)
  let s := readInto s RegisterTemperatureMaxValue 1
  if s._result = ku8MBSuccess then (s._node.getResponseBuffer 0, s) else (result, s)

/-- Source `setTemperatureMaxValue(uint16_t value)`. -/
def setTemperatureMaxValue (s : Session) (value : Nat) : Nat × Session :=
  let s := { s with _node := s._node.setTransmitBuffer 0 value }
  let s := writeFrom s RegisterTemperatureMaxValue 1
  (s._result, s)

/-- Source `getTemperatureNominalValue()`. -/
def getTemperatureNominalValue (s : Session) : Nat × Session :=
  let result : Nat := toUint16 (-1)
  let s := readInto s RegisterTemperatureNominalValue 1
  if s._result = ku8MBSuccess then (s._node.getResponseBuffer 0, s) else (result, s)

/-- Source `setTemperatureNominalValue(uint16_t value)`. -/
def setTemperatureNominalValue (s : Session) (value : Nat) : Nat × Session :=
  let s := { s with _node := s._node.setTransmitBuffer 0 value }
  let s := writeFrom s RegisterTemperatureNominalValue 1
  (s._result, s)

/-- Source `getPowerNominalValue()`. -/
def getPowerNominalValue (s : Session) : Int × Session :=
  let result : Int := -99
  let s := readInto s RegisterPowerNominalValue 1
  if s._result = ku8MBSuccess then (toInt16 (s._node.getResponseBuffer 0), s) else (result, s)

/-- Source `setPowerNominalValue(int16_t value)`; the argument is converted to the
`uint16_t` parameter of `setTransmitBuffer`. -/
def setPowerNominalValue (s : Session) (value : Int) : Nat × Session :=
  let s := { s with _node := s._node.setTransmitBuffer 0 (toUint16 value) }
  let s := writeFrom s RegisterPowerNominalValue 1
  (s._result, s)

/-- Source `getHomeTotalPower()`. -/
def getHomeTotalPower (s : Session) : Int × Session :=
  let result : Int := 0
  let s := readInto s RegisterHomeTotalPower 2
  if s._result = ku8MBSuccess then (getModbusInt32 (copyResponse s 2), s) else (result, s)

/-- Source `setHomeTotalPower(int32_t value)`; the argument is converted to the
`uint32_t` parameter of `highWord` and `lowWord`. -/
def setHomeTotalPower (s : Session) (value : Int) : Nat × Session :=
  let s := { s with _node := s._node.setTransmitBuffer 0 (highWord (toUint32 value)) }
  let s := { s with _node := s._node.setTransmitBuffer 1 (lowWord (toUint32 value)) }
  let s := writeFrom s RegisterHomeTotalPower 2
  (s._result, s)

/-- Source `setRelaisMinOnTime(int r, uint16_t value)`. -/
def setRelaisMinOnTime (s : Session) (r : Int) (value : Nat) : Option (Nat × Session) :=
  let s := { s with _node := s._node.setTransmitBuffer 0 value }
  match subscript RegisterRelaisConfiguration r with
  | none => none
  | some base =>
    let s := writeFrom s ((base + 5) % 65536) 1
    some (s._result, s)

/-- Source `setRelaisMinOffTime(int r, uint16_t value)`. -/
def setRelaisMinOffTime (s : Session) (r : Int) (value : Nat) : Option (Nat × Session) :=
  let s := { s with _node := s._node.setTransmitBuffer 0 value }
  match subscript RegisterRelaisConfiguration r with
  | none => none
  | some base =>
    let s := writeFrom s ((base + 6) % 65536) 1
    some (s._result, s)

/-! ### Operating information -/

/-- Source `getRestartCounter()`. -/
def getRestartCounter (s : Session) : Nat × Session :=
  let result : Nat := 0
  let s := readInto s RegisterRestartCounter 2
  if s._result = ku8MBSuccess then (getModbusUint32 (copyResponse s 2), s) else (result, s)

/-- Source `getActualTemperaturePCB()`. -/
def getActualTemperaturePCB (s : Session) : Int × Session :=
  let result : Int := -99
  let s := readInto s RegisterActualTemperaturePCB 1
  if s._result = ku8MBSuccess then (toInt16 (s._node.getResponseBuffer 0), s) else (result, s)

/-- Source `getTotalOperatingSeconds()`. -/
def getTotalOperatingSeconds (s : Session) : Nat × Session :=
  let result : Nat := 0
  let s := readInto s RegisterTotalOperatingSeconds 2
  if s._result = ku8MBSuccess then (getModbusUint32 (copyResponse s 2), s) else (result, s)

/-- Source `getErrorCounter()`. -/
def getErrorCounter (s : Session) : Nat × Session :=
  let result : Nat := 0
  let s := readInto s RegisterErrorCounter 2
  if s._result = ku8MBSuccess then (getModbusUint32 (copyResponse s 2), s) else (result, s)

/-- Source `getActualTemperatureBoiler()`. -/
def getActualTemperatureBoiler (s : Session) : Int × Session :=
  let result : Int := -1
  let s := readInto s RegisterActualTemperatureBoiler 1
  if s._result = ku8MBSuccess then (toInt16 (s._node.getResponseBuffer 0), s) else (result, s)

/-- Source `getActualTemperatureExternalSensor1()`. -/
def getActualTemperatureExternalSensor1 (s : Session) : Int × Session :=
  let result : Int := -1
  let s := readInto s RegisterActualTemperaturExternalSensor1 1
  if s._result = ku8MBSuccess then (toInt16 (s._node.getResponseBuffer 0), s) else (result, s)

/-- Source `getActualTemperatureExternalSensor2()`. -/
def getActualTemperatureExternalSensor2 (s : Session) : Int × Session :=
  let result : Int := -1
  let s := readInto s RegisterActualTemperaturExternalSensor2 1
  if s._result = ku8MBSuccess then (toInt16 (s._node.getResponseBuffer 0), s) else (result, s)

/-- Source `getUserTemperatureNominal()`. -/
def getUserTemperatureNominal (s : Session) : Int × Session :=
  let result : Int := -99
  let s := readInto s RegisterUserTemperatureNominal 1
  if s._result = ku8MBSuccess then (toInt16 (s._node.getResponseBuffer 0), s) else (result, s)

/-- Source `getRelaisStatus()`. -/
def getRelaisStatus (s : Session) : Nat × Session :=
  let result : Nat := toUint16 (-1)
  let s := readInto s RegisterRelaisStatus 1
  if s._result = ku8MBSuccess then (s._node.getResponseBuffer 0, s) else (result, s)

/-- One pass of the loop body of `getRelaisOperatingTime` for loop index `i`. -/
def relaisOperatingTimeStep (acc : RelaisOperatingTime_t × Session) (i : Nat) :
    RelaisOperatingTime_t × Session :=
  let rot := acc.1
  let s := readInto acc.2 (RegisterRelaisOperatingTime.getD i 0) 2
  if s._result = ku8MBSuccess then
    let data := copyResponse s 2
    match i with
    | 0 => ({ rot with OperatingSeconds1 := getModbusUint32 data }, s)
    | 1 => ({ rot with OperatingSeconds2 := getModbusUint32 data }, s)
    | 2 => ({ rot with OperatingSeconds3 := getModbusUint32 data }, s)
    | _ => (rot, s)
  else (rot, s)

/-- Source `getRelaisOperatingTime()`: `for (int i = 0; i < 3; i++) { ... }`. The local
`rot` is declared without an initialiser, so its fields start with indeterminate
content; that content is the argument `rot`. -/
def getRelaisOperatingTime (s : Session) (rot : RelaisOperatingTime_t) :
    RelaisOperatingTime_t × Session :=
  (List.range 3).foldl relaisOperatingTimeStep (rot, s)

/-- Source `getError(int i)`. The local `result` is declared without an initialiser, so
its fields start with indeterminate content; that content is the argument `result`. -/
def getError (s : Session) (i : Int) (result : ErrorData_t) :
    Option (ErrorData_t × Session) :=
  match subscript RegisterErrorData i with
  | none => none
  | some address =>
    let s := readInto s address 4
    if s._result = ku8MBSuccess then
      some ({ result with
              OperatingHour :=
                getModbusUint32 [s._node.getResponseBuffer 0, s._node.getResponseBuffer 1],
              OperatingSecond := s._node.getResponseBuffer 2,
              ErrorCode := s._node.getResponseBuffer 3 }, s)
    else some (result, s)

/-! ## Concrete sessions used to evaluate the operations -/

/-- A bus that answers every transaction with the same result code and response words. -/
def constantBus (code : Nat) (words : List Nat) : Nat → Reply :=
  fun _ => { code := code, buffer := fun i => words.getD i 0 }

/-- A session right after construction, attached to the given bus. -/
def sessionOn (bus : Nat → Reply) : Session :=
  { manualDere := false,
    _node := { responseBuffer := fun _ => 0, transmitBuffer := fun _ => 0,
               issued := [], bus := bus },
    _result := ku8MBSuccess }

/-- Character codes of a text literal. -/
def charCodes (t : String) : List Nat := t.toList.map Char.toNat

/-- Sixteen words holding the bytes of "E.G.O." packed high byte first, then zeros. -/
def vendorWordsBigEndian : List Nat :=
  [0x452E, 0x472E, 0x4F2E, 0, 0, 0, 0, 0, 0, 0, 0, 0, 0, 0, 0, 0]

/-- Stack content used for the uninitialised local of `getRelaisConfiguration`. -/
def staleRelaisConfiguration : RelaisConfigurationData_t :=
  { ActualPower := 0xDEAD, OperatingSeconds := 0xDEADBEEF, SwitchingCycles := 0xDEADBEEF,
    MinOnTime := 0xDEAD, MinOffTime := 0xDEAD }

/-- Stack content used for the uninitialised local of `getError`. -/
def staleErrorData : ErrorData_t :=
  { OperatingHour := 0xDEADBEEF, OperatingSecond := 0xDEAD, ErrorCode := 0xDEAD }

/-- Stack content used for the uninitialised local of `getRelaisOperatingTime`. -/
def staleRelaisOperatingTime : RelaisOperatingTime_t :=
  { OperatingSeconds1 := 0xDEADBEEF, OperatingSeconds2 := 0xDEADBEEF,
    OperatingSeconds3 := 0xDEADBEEF }

/-- Result code for an illegal address, `2` in the header comment on `_result`. -/
def illegalAddress : Nat := 2

/-- A session whose last status is a failure and whose next transaction succeeds with
response words `[0x8000, 0x0001]`. -/
def priorFailureSession : Session :=
  { sessionOn (constantBus ku8MBSuccess [0x8000, 0x0001]) with
    _result := illegalAddress }

/-- A session whose next transaction fails with the illegal-address code while the
response buffer holds the words `[0x1234, 0x5678]`. -/
def failingSession : Session := sessionOn (constantBus illegalAddress [0x1234, 0x5678])

/-- A session whose next transaction succeeds with the words `vendorWordsBigEndian`. -/
def vendorSession : Session := sessionOn (constantBus ku8MBSuccess vendorWordsBigEndian)

/-- A session whose next transaction succeeds with the words `[0x1502, 0x3040]`. -/
def productionDateSession : Session := sessionOn (constantBus ku8MBSuccess [0x1502, 0x3040])

/-- A session whose every transaction fails with the illegal-address code. -/
def deadBusSession : Session := sessionOn (constantBus illegalAddress [])

/-- A session whose next transaction is answered with result code `3` (illegal value). -/
def illegalValueSession : Session := sessionOn (constantBus 3 [])

/-- A session whose next transaction succeeds with seven response words. -/
def relaisConfigurationSession : Session :=
  sessionOn (constantBus ku8MBSuccess [500, 0x0001, 0x0002, 0x0003, 0x0004, 60, 30])

/-- A bus whose first two transactions fail with the illegal-address code and whose later
transactions succeed with the words `[0x0001, 0x0002]`. -/
def lateSuccessBus : Nat → Reply :=
  fun n =>
    if n < 2 then { code := illegalAddress, buffer := fun _ => 0 }
    else { code := ku8MBSuccess, buffer := fun i => [0x0001, 0x0002].getD i 0 }

/-- A session whose next transaction succeeds with four response words. -/
def errorDataSession : Session :=
  sessionOn (constantBus ku8MBSuccess [0x0001, 0x0002, 59, 7])

/-- A session whose next transaction succeeds with the words `[0x8000, 0x0001]`. -/
def negativePowerSession : Session := sessionOn (constantBus ku8MBSuccess [0x8000, 0x0001])

/-! ## Codec lemmas -/

theorem getModbusUint32_pair (w0 w1 : Nat) :
    getModbusUint32 [w0, w1] = (w0 % 65536) * 65536 + w1 % 65536 := by
  simp only [getModbusUint32, storeWords, wordBytes, loadUint32, List.getD_cons_zero,
    List.getD_cons_succ, List.nil_append, List.cons_append]
  omega

theorem bytes_or_eq_add (b0 b1 b2 b3 : Nat) (h1 : b1 < 256) (h2 : b2 < 256) (h3 : b3 < 256) :
    (b0 <<< 24) ||| (b1 <<< 16) ||| (b2 <<< 8) ||| b3
      = b0 * 16777216 + b1 * 65536 + b2 * 256 + b3 := by
  have e1 : (b0 <<< 24) ||| (b1 <<< 16) = 2 ^ 24 * b0 + b1 * 65536 := by
    rw [Nat.shiftLeft_eq, Nat.shiftLeft_eq, Nat.mul_comm b0 (2 ^ 24)]
    have hlt : b1 * 2 ^ 16 < 2 ^ 24 := by norm_num; omega
    rw [← Nat.mul_add_lt_is_or hlt]
    norm_num
  have e2 : (2 ^ 24 * b0 + b1 * 65536) ||| (b2 <<< 8)
      = 2 ^ 16 * (b0 * 256 + b1) + b2 * 256 := by
    rw [Nat.shiftLeft_eq]
    have hlt : b2 * 2 ^ 8 < 2 ^ 16 := by norm_num; omega
    have : 2 ^ 24 * b0 + b1 * 65536 = 2 ^ 16 * (b0 * 256 + b1) := by norm_num; ring
    rw [this, ← Nat.mul_add_lt_is_or hlt]
    norm_num
  have e3 : (2 ^ 16 * (b0 * 256 + b1) + b2 * 256) ||| b3
      = 2 ^ 8 * (b0 * 65536 + b1 * 256 + b2) + b3 := by
    have hlt : b3 < 2 ^ 8 := by norm_num; omega
    have : 2 ^ 16 * (b0 * 256 + b1) + b2 * 256 = 2 ^ 8 * (b0 * 65536 + b1 * 256 + b2) := by
      norm_num; ring
    rw [this, ← Nat.mul_add_lt_is_or hlt]
  rw [e1, e2, e3]
  norm_num
  ring

/-! ### Text decoding -/

theorem storeWords_length (data : List Nat) (n : Nat) : (storeWords data n).length = 2 * n := by
  induction n with
  | zero => rfl
  | succ n ih => simp [storeWords, wordBytes, ih]; omega

theorem storeWords_getD (data : List Nat) (n i : Nat) (hi : i < n) :
    (storeWords data n).getD (2 * i) 0 = data.getD i 0 % 256
      ∧ (storeWords data n).getD (2 * i + 1) 0 = data.getD i 0 / 256 % 256 := by
  induction n with
  | zero => omega
  | succ n ih =>
    have hlen := storeWords_length data n
    by_cases h : i < n
    · have := ih h
      simp only [storeWords]
      rw [List.getD_append _ _ _ _ (by omega), List.getD_append _ _ _ _ (by omega)]
      exact this
    · have hin : i = n := by omega
      subst hin
      simp only [storeWords]
      rw [List.getD_append_right _ _ _ _ (by omega), List.getD_append_right _ _ _ _ (by omega)]
      have e1 : 2 * i - (storeWords data i).length = 0 := by omega
      have e2 : 2 * i + 1 - (storeWords data i).length = 1 := by omega
      rw [e1, e2]
      simp [wordBytes]

theorem takeWhile_nonzero_cons (a : Nat) (l : List Nat) (h : a ≠ 0) :
    (a :: l).takeWhile (fun x => decide (x ≠ 0)) = a :: l.takeWhile (fun x => decide (x ≠ 0)) := by
  rw [List.takeWhile_cons]
  simp [h]

theorem takeWhile_zero_cons (l : List Nat) :
    ((0 : Nat) :: l).takeWhile (fun x => decide (x ≠ 0)) = [] := by
  rw [List.takeWhile_cons]
  simp

theorem scanLoop_eq (b : List Nat) (fuel : Nat) : ∀ (i : Nat) (text : List Nat), 32 < i + fuel →
    scanLoop b fuel i text
      = text ++ ((b.take 32).drop i).takeWhile (fun x => decide (x ≠ 0)) := by
  induction fuel with
  | zero =>
    intro i text h
    have : (b.take 32).drop i = [] := by
      apply List.drop_eq_nil_of_le
      simp; omega
    simp [scanLoop, this]
  | succ fuel ih =>
    intro i text h
    unfold scanLoop
    by_cases hc : i < 32 ∧ b.getD i 0 ≠ 0
    · rw [if_pos hc, ih (i + 1) _ (by omega)]
      obtain ⟨h32, hne⟩ := hc
      have hlt : i < b.length := by
        by_contra hge
        exact hne (List.getD_eq_default _ _ (by omega))
      have hlt2 : i < (b.take 32).length := by simp; omega
      rw [List.drop_eq_getElem_cons hlt2]
      have hget : (b.take 32)[i] = b.getD i 0 := by
        rw [List.getD_eq_getElem _ _ hlt]
        simp
      rw [hget, takeWhile_nonzero_cons _ _ hne]
      simp only [List.append_assoc, List.singleton_append]
    · rw [if_neg hc]
      by_cases hlt2 : i < (b.take 32).length
      · have hlt : i < b.length := by simp at hlt2; omega
        have h32 : i < 32 := by simp at hlt2; omega
        rw [List.drop_eq_getElem_cons hlt2]
        have hget : (b.take 32)[i] = b.getD i 0 := by
          rw [List.getD_eq_getElem _ _ hlt]
          simp
        rw [hget]
        have : b.getD i 0 = 0 := by
          by_contra hne
          exact hc ⟨h32, hne⟩
        rw [this, takeWhile_zero_cons]
        simp
      · have : (b.take 32).drop i = [] := List.drop_eq_nil_of_le (by omega)
        simp [this]

theorem takeWhile_eq_take (l : List Nat) : ∀ k, k ≤ l.length → (∀ j, j < k → l.getD j 0 ≠ 0) →
    (k < l.length → l.getD k 0 = 0) → l.takeWhile (fun x => decide (x ≠ 0)) = l.take k := by
  induction l with
  | nil => intro k hk _ _; simp
  | cons a l ih =>
    intro k hk hnz hz
    cases k with
    | zero =>
      have : a = 0 := by simpa using hz (by simp)
      rw [this, takeWhile_zero_cons]
      rfl
    | succ k =>
      have ha : a ≠ 0 := by simpa using hnz 0 (by omega)
      have := ih k (by simpa using hk) (fun j hj => by simpa using hnz (j + 1) (by omega))
        (fun h => by simpa using hz (by simpa using h))
      rw [takeWhile_nonzero_cons _ _ ha, this]
      rfl

theorem takeWhile_getD (l : List Nat) : ∀ p, p < (l.takeWhile (fun x => decide (x ≠ 0))).length →
    (l.takeWhile (fun x => decide (x ≠ 0))).getD p 0 = l.getD p 0 := by
  induction l with
  | nil => intro p hp; simp at hp
  | cons a l ih =>
    intro p hp
    by_cases ha : a = 0
    · rw [ha, takeWhile_zero_cons] at hp
      simp at hp
    · rw [takeWhile_nonzero_cons _ _ ha] at hp ⊢
      cases p with
      | zero => simp
      | succ p => simpa using ih p (by simpa using hp)

theorem takeWhile_nonzero_length_le (l : List Nat) :
    (l.takeWhile (fun x => decide (x ≠ 0))).length ≤ l.length := by
  induction l with
  | nil => simp
  | cons a l ih =>
    by_cases ha : a = 0
    · rw [ha, takeWhile_zero_cons]
      simp
    · rw [takeWhile_nonzero_cons _ _ ha]
      simpa using ih

theorem getModbusString32_eq (data : List Nat) :
    getModbusString32 data = (stringBuffer data).takeWhile (fun x => decide (x ≠ 0)) := by
  unfold getModbusString32
  rw [scanLoop_eq _ _ _ _ (by omega)]
  have : (stringBuffer data).length = 32 := storeWords_length data 16
  simp [List.take_of_length_le (le_of_eq this)]
theorem getModbusString32_no_zero_byte_example :
    getModbusString32 (List.replicate 16 0x4141) = List.replicate 32 0x41 := by
  decide

theorem getModbusInt32_pair (w0 w1 : Nat) :
    getModbusInt32 [w0, w1] = toInt32 (getModbusUint32 [w0, w1]) := rfl

/-! ## Session lemmas -/

@[simp] theorem readInto_result (s : Session) (a q : Nat) :
    (readInto s a q)._result = s._node.nextReply.code := rfl

@[simp] theorem readInto_response (s : Session) (a q i : Nat) :
    (readInto s a q)._node.getResponseBuffer i = s._node.nextReply.buffer i := rfl

@[simp] theorem readInto_issued (s : Session) (a q : Nat) :
    (readInto s a q)._node.issued = s._node.issued ++ [Request.read a q] := rfl

@[simp] theorem readInto_bus (s : Session) (a q : Nat) :
    (readInto s a q)._node.bus = s._node.bus := rfl

@[simp] theorem copyResponse_readInto (s : Session) (a q n : Nat) :
    copyResponse (readInto s a q) n = (List.range n).map s._node.nextReply.buffer := rfl

@[simp] theorem writeFrom_result (s : Session) (a q : Nat) :
    (writeFrom s a q)._result = s._node.nextReply.code := rfl

@[simp] theorem writeFrom_issued (s : Session) (a q : Nat) :
    (writeFrom s a q)._node.issued
      = s._node.issued ++ [Request.write a q ((List.range q).map s._node.transmitBuffer)] := rfl

theorem subscript_RegisterRelaisConfiguration (r : Int) (hr : 0 ≤ r ∧ r < 3) :
    subscript RegisterRelaisConfiguration r = some (0x1000 + 0x20 * r.toNat) := by
  have hcases : r = 0 ∨ r = 1 ∨ r = 2 := by omega
  rcases hcases with h | h | h <;> subst h <;> rfl

theorem subscript_RegisterErrorData (i : Int) (hi : 0 ≤ i ∧ i ≤ 9) :
    subscript RegisterErrorData i = some (0x1500 + 4 * i.toNat) := by
  have hcases : i = 0 ∨ i = 1 ∨ i = 2 ∨ i = 3 ∨ i = 4 ∨ i = 5 ∨ i = 6 ∨ i = 7 ∨ i = 8 ∨ i = 9 := by
    omega
  rcases hcases with h | h | h | h | h | h | h | h | h | h <;> subst h <;> rfl

theorem toUint16_eq (x : Int) (hx : -32768 ≤ x ∧ x ≤ 32767) :
    ((toUint16 x : Nat) : Int) = (if 0 ≤ x then x else x + 65536) ∧ toUint16 x < 65536 := by
  unfold toUint16
  split <;> omega

theorem toUint32_eq (x : Int) (hx : -2147483648 ≤ x ∧ x ≤ 2147483647) :
    ((toUint32 x : Nat) : Int) = (if 0 ≤ x then x else x + 4294967296)
      ∧ toUint32 x < 4294967296 := by
  unfold toUint32
  split <;> omega

/-! ## Claims -/

/-- C1: for 16-bit words `w0`, `w1`, `getModbusUint32 [w0, w1]` equals
`(byte0<<24)|(byte1<<16)|(byte2<<8)|byte3` with `byte0..3` the high byte of `w0`, the low
byte of `w0`, the high byte of `w1`, the low byte of `w1`, which is `w0 * 65536 + w1`. -/
theorem getModbusUint32_big_endian (w0 w1 : Nat) (h0 : w0 < 65536) (h1 : w1 < 65536) :
    getModbusUint32 [w0, w1]
        = ((w0 / 256) <<< 24) ||| ((w0 % 256) <<< 16) ||| ((w1 / 256) <<< 8) ||| (w1 % 256)
      ∧ getModbusUint32 [w0, w1] = w0 * 65536 + w1 := by
  have hb := bytes_or_eq_add (w0 / 256) (w0 % 256) (w1 / 256) (w1 % 256)
    (Nat.mod_lt _ (by norm_num)) (by omega) (Nat.mod_lt _ (by norm_num))
  rw [hb, getModbusUint32_pair]
  constructor <;> omega

theorem getModbusUint32_big_endian_witness :
    getModbusUint32 [0x2014, 0x0515]
        = ((0x2014 / 256) <<< 24) ||| ((0x2014 % 256) <<< 16) ||| ((0x0515 / 256) <<< 8)
            ||| (0x0515 % 256)
      ∧ getModbusUint32 [0x2014, 0x0515] = 0x2014 * 65536 + 0x0515 :=
  getModbusUint32_big_endian 0x2014 0x0515 (by decide) (by decide)

/-- C2 (counterexample): the read of 2 words at 0x2034 succeeds with response words
`[0x1502, 0x3040]`, and `getProductionDate` does not return `0x30401502`. -/
theorem getProductionDate_scenario_refuted :
    productionDateSession._node.nextReply.code = ku8MBSuccess
      ∧ productionDateSession._node.nextReply.buffer 0 = 0x1502
      ∧ productionDateSession._node.nextReply.buffer 1 = 0x3040
      ∧ (getProductionDate productionDateSession).2._node.issued
          = [Request.read 0x2034 2]
      ∧ (getProductionDate productionDateSession).1
          ≠ 0x30401502 := by
  decide

/-- C2 (amended): when the read of 2 words at 0x2034 succeeds with response words
`[0x1502, 0x3040]`, `getProductionDate` issues exactly that read and returns `0x15023040`:
response word 0 is the high-order half of the result. -/
theorem getProductionDate_scenario (s : Session)
    (hok : s._node.nextReply.code = ku8MBSuccess)
    (h0 : s._node.nextReply.buffer 0 = 0x1502)
    (h1 : s._node.nextReply.buffer 1 = 0x3040) :
    (getProductionDate s).2._node.issued = s._node.issued ++ [Request.read 0x2034 2]
      ∧ (getProductionDate s).1 = 0x15023040 := by
  simp [getProductionDate, hok, RegisterProductionDate, List.range, List.range.loop, h0, h1,
    getModbusUint32_pair]

theorem getProductionDate_scenario_witness :
    (getProductionDate productionDateSession).2._node.issued
        = productionDateSession._node.issued
            ++ [Request.read 0x2034 2]
      ∧ (getProductionDate productionDateSession).1
          = 0x15023040 :=
  getProductionDate_scenario productionDateSession
    rfl rfl rfl

/-- C3: encoding and decoding of 32-bit values are mutually inverse. The two words that
`setHomeTotalPower` places in the transmit buffer decode with `getModbusUint32` to the
32-bit pattern of its argument; `getModbusUint32 [highWord x, lowWord x] = x` for every
32-bit `x`; and splitting `getModbusUint32 [w0, w1]` with `highWord`, `lowWord` gives
back `w0`, `w1` for 16-bit words. -/
theorem encode_decode_inverse (s : Session) (value : Int) (x w0 w1 : Nat)
    (hx : x < 4294967296) (h0 : w0 < 65536) (h1 : w1 < 65536) :
    ((setHomeTotalPower s value).2._node.issued
        = s._node.issued ++ [Request.write 0x1301 2
            [highWord (toUint32 value), lowWord (toUint32 value)]]
      ∧ getModbusUint32 [(setHomeTotalPower s value).2._node.transmitBuffer 0,
          (setHomeTotalPower s value).2._node.transmitBuffer 1] = toUint32 value)
      ∧ getModbusUint32 [highWord x, lowWord x] = x
      ∧ highWord (getModbusUint32 [w0, w1]) = w0
      ∧ lowWord (getModbusUint32 [w0, w1]) = w1 := by
  have hv : toUint32 value < 4294967296 := by
    unfold toUint32
    omega
  refine ⟨⟨?_, ?_⟩, ?_, ?_, ?_⟩
  · simp [setHomeTotalPower, RegisterHomeTotalPower, ModbusMaster.setTransmitBuffer,
      List.range, List.range.loop]
  · simp only [setHomeTotalPower, writeFrom, ModbusMaster.writeMultipleRegisters,
      ModbusMaster.setTransmitBuffer, getModbusUint32_pair, highWord, lowWord]
    simp
    omega
  · simp only [getModbusUint32_pair, highWord, lowWord]
    omega
  · simp only [getModbusUint32_pair, highWord]
    omega
  · simp only [getModbusUint32_pair, lowWord]
    omega

theorem encode_decode_inverse_witness :
    ((setHomeTotalPower illegalValueSession (-2)).2._node.issued
        = illegalValueSession._node.issued ++ [Request.write 0x1301 2
            [highWord (toUint32 (-2)), lowWord (toUint32 (-2))]]
      ∧ getModbusUint32
          [(setHomeTotalPower illegalValueSession (-2)).2._node.transmitBuffer 0,
           (setHomeTotalPower illegalValueSession (-2)).2._node.transmitBuffer 1]
          = toUint32 (-2))
      ∧ getModbusUint32 [highWord 0x20140515, lowWord 0x20140515] = 0x20140515
      ∧ highWord (getModbusUint32 [0x1502, 0x3040]) = 0x1502
      ∧ lowWord (getModbusUint32 [0x1502, 0x3040]) = 0x3040 :=
  encode_decode_inverse illegalValueSession (-2) 0x20140515 0x1502 0x3040
    (by decide) (by decide) (by decide)

/-- C5: for every 16-word input, with `B` the 32-byte buffer that `getModbusString32`
scans and `k` the position of the first zero byte of `B` (`k = 32` when no byte is zero),
the result is `B[0..k-1]` and has exactly `k` characters; for `k = 32` it is all of `B`;
sixteen zero words give the empty text; the result never has more than 32 characters. -/
theorem getModbusString32_first_zero (data : List Nat) (k : Nat)
    (_hlen : data.length = 16) (hk : k ≤ 32)
    (hnz : ∀ j, j < k → (stringBuffer data).getD j 0 ≠ 0)
    (hz : k < 32 → (stringBuffer data).getD k 0 = 0) :
    (stringBuffer data).length = 32
      ∧ getModbusString32 data = (stringBuffer data).take k
      ∧ (getModbusString32 data).length = k
      ∧ (k = 32 → getModbusString32 data = stringBuffer data)
      ∧ getModbusString32 (List.replicate 16 0) = []
      ∧ ∀ d : List Nat, (getModbusString32 d).length ≤ 32 := by
  have hB : (stringBuffer data).length = 32 := storeWords_length data 16
  have hres : getModbusString32 data = (stringBuffer data).take k := by
    rw [getModbusString32_eq]
    exact takeWhile_eq_take _ k (by omega) hnz (fun h => hz (by omega))
  refine ⟨hB, hres, ?_, ?_, by decide, ?_⟩
  · rw [hres, List.length_take]
    omega
  · intro h32
    rw [hres, h32]
    exact List.take_of_length_le (by omega)
  · intro d
    rw [getModbusString32_eq]
    have h1 := takeWhile_nonzero_length_le (stringBuffer d)
    have h2 : (stringBuffer d).length = 32 := storeWords_length d 16
    omega

theorem getModbusString32_first_zero_witness :
    (stringBuffer vendorWordsBigEndian).length = 32
      ∧ getModbusString32 vendorWordsBigEndian = (stringBuffer vendorWordsBigEndian).take 6
      ∧ (getModbusString32 vendorWordsBigEndian).length = 6
      ∧ (6 = 32 → getModbusString32 vendorWordsBigEndian = stringBuffer vendorWordsBigEndian)
      ∧ getModbusString32 (List.replicate 16 0) = []
      ∧ ∀ d : List Nat, (getModbusString32 d).length ≤ 32 :=
  getModbusString32_first_zero vendorWordsBigEndian 6 (by decide) (by decide)
    (by decide) (by decide)

/-- C6: when the transport read fails with a result code `c` other than success, every
scalar and text read returns its fixed sentinel, whatever the response buffer holds, and
`getErrCode(false)` afterwards returns `c`. Sentinels: `0xFFFF` for the unsigned 16-bit
reads, `-99` or `-1` for the signed 16-bit reads, `0` for the 32-bit reads, the empty
text for the text reads. -/
theorem read_failure_returns_sentinel (s : Session) (c : Nat)
    (hc : s._node.nextReply.code = c) (hfail : c ≠ ku8MBSuccess) :
    (((getManufacturerId s).1 = 0xFFFF) ∧ (getErrCode (getManufacturerId s).2 false).1 = c)
      ∧ (((getProductId s).1 = 0xFFFF) ∧ (getErrCode (getProductId s).2 false).1 = c)
      ∧ (((getProductVersion s).1 = 0xFFFF) ∧ (getErrCode (getProductVersion s).2 false).1 = c)
      ∧ (((getFirmwareVersion s).1 = 0xFFFF) ∧ (getErrCode (getFirmwareVersion s).2 false).1 = c)
      ∧ (((getRelaisCount s).1 = 0xFFFF) ∧ (getErrCode (getRelaisCount s).2 false).1 = c)
      ∧ (((getTemperatureMinValue s).1 = 0xFFFF)
          ∧ (getErrCode (getTemperatureMinValue s).2 false).1 = c)
      ∧ (((getTemperatureMaxValue s).1 = 0xFFFF)
          ∧ (getErrCode (getTemperatureMaxValue s).2 false).1 = c)
      ∧ (((getTemperatureNominalValue s).1 = 0xFFFF)
          ∧ (getErrCode (getTemperatureNominalValue s).2 false).1 = c)
      ∧ (((getRelaisStatus s).1 = 0xFFFF) ∧ (getErrCode (getRelaisStatus s).2 false).1 = c)
      ∧ (((getPowerNominalValue s).1 = -99) ∧ (getErrCode (getPowerNominalValue s).2 false).1 = c)
      ∧ (((getActualTemperaturePCB s).1 = -99)
          ∧ (getErrCode (getActualTemperaturePCB s).2 false).1 = c)
      ∧ (((getUserTemperatureNominal s).1 = -99)
          ∧ (getErrCode (getUserTemperatureNominal s).2 false).1 = c)
      ∧ (((getActualTemperatureBoiler s).1 = -1)
          ∧ (getErrCode (getActualTemperatureBoiler s).2 false).1 = c)
      ∧ (((getActualTemperatureExternalSensor1 s).1 = -1)
          ∧ (getErrCode (getActualTemperatureExternalSensor1 s).2 false).1 = c)
      ∧ (((getActualTemperatureExternalSensor2 s).1 = -1)
          ∧ (getErrCode (getActualTemperatureExternalSensor2 s).2 false).1 = c)
      ∧ (((getProductionDate s).1 = 0) ∧ (getErrCode (getProductionDate s).2 false).1 = c)
      ∧ (((getRestartCounter s).1 = 0) ∧ (getErrCode (getRestartCounter s).2 false).1 = c)
      ∧ (((getTotalOperatingSeconds s).1 = 0)
          ∧ (getErrCode (getTotalOperatingSeconds s).2 false).1 = c)
      ∧ (((getErrorCounter s).1 = 0) ∧ (getErrCode (getErrorCounter s).2 false).1 = c)
      ∧ (((getHomeTotalPower s).1 = 0) ∧ (getErrCode (getHomeTotalPower s).2 false).1 = c)
      ∧ (((getVendorName s).1 = []) ∧ (getErrCode (getVendorName s).2 false).1 = c)
      ∧ (((getProductName s).1 = []) ∧ (getErrCode (getProductName s).2 false).1 = c)
      ∧ (((getSerialNumber s).1 = []) ∧ (getErrCode (getSerialNumber s).2 false).1 = c) := by
  subst hc
  have h65535 : toUint16 (-1) = 65535 := by decide
  refine ⟨?_, ?_, ?_, ?_, ?_, ?_, ?_, ?_, ?_, ?_, ?_, ?_,
      ?_, ?_, ?_, ?_, ?_, ?_, ?_, ?_, ?_, ?_, ?_⟩ <;>
    simp [getManufacturerId, getProductId, getProductVersion, getFirmwareVersion,
      getRelaisCount, getTemperatureMinValue, getTemperatureMaxValue, getTemperatureNominalValue,
      getRelaisStatus, getPowerNominalValue, getActualTemperaturePCB, getUserTemperatureNominal,
      getActualTemperatureBoiler, getActualTemperatureExternalSensor1,
      getActualTemperatureExternalSensor2, getProductionDate, getRestartCounter,
      getTotalOperatingSeconds, getErrorCounter, getHomeTotalPower, getVendorName, getProductName,
      getSerialNumber, hfail, getErrCode, h65535]

theorem read_failure_returns_sentinel_witness :
    (((getManufacturerId failingSession).1 = 0xFFFF)
          ∧ (getErrCode (getManufacturerId failingSession).2 false).1 = illegalAddress)
      ∧ (((getProductId failingSession).1 = 0xFFFF)
          ∧ (getErrCode (getProductId failingSession).2 false).1 = illegalAddress)
      ∧ (((getProductVersion failingSession).1 = 0xFFFF)
          ∧ (getErrCode (getProductVersion failingSession).2 false).1 = illegalAddress)
      ∧ (((getFirmwareVersion failingSession).1 = 0xFFFF)
          ∧ (getErrCode (getFirmwareVersion failingSession).2 false).1 = illegalAddress)
      ∧ (((getRelaisCount failingSession).1 = 0xFFFF)
          ∧ (getErrCode (getRelaisCount failingSession).2 false).1 = illegalAddress)
      ∧ (((getTemperatureMinValue failingSession).1 = 0xFFFF)
          ∧ (getErrCode (getTemperatureMinValue failingSession).2 false).1 = illegalAddress)
      ∧ (((getTemperatureMaxValue failingSession).1 = 0xFFFF)
          ∧ (getErrCode (getTemperatureMaxValue failingSession).2 false).1 = illegalAddress)
      ∧ (((getTemperatureNominalValue failingSession).1 = 0xFFFF)
          ∧ (getErrCode (getTemperatureNominalValue failingSession).2 false).1 = illegalAddress)
      ∧ (((getRelaisStatus failingSession).1 = 0xFFFF)
          ∧ (getErrCode (getRelaisStatus failingSession).2 false).1 = illegalAddress)
      ∧ (((getPowerNominalValue failingSession).1 = -99)
          ∧ (getErrCode (getPowerNominalValue failingSession).2 false).1 = illegalAddress)
      ∧ (((getActualTemperaturePCB failingSession).1 = -99)
          ∧ (getErrCode (getActualTemperaturePCB failingSession).2 false).1 = illegalAddress)
      ∧ (((getUserTemperatureNominal failingSession).1 = -99)
          ∧ (getErrCode (getUserTemperatureNominal failingSession).2 false).1 = illegalAddress)
      ∧ (((getActualTemperatureBoiler failingSession).1 = -1)
          ∧ (getErrCode (getActualTemperatureBoiler failingSession).2 false).1 = illegalAddress)
      ∧ (((getActualTemperatureExternalSensor1 failingSession).1 = -1)
          ∧ (getErrCode (getActualTemperatureExternalSensor1 failingSession).2 false).1 = illegalAddress)
      ∧ (((getActualTemperatureExternalSensor2 failingSession).1 = -1)
          ∧ (getErrCode (getActualTemperatureExternalSensor2 failingSession).2 false).1 = illegalAddress)
      ∧ (((getProductionDate failingSession).1 = 0)
          ∧ (getErrCode (getProductionDate failingSession).2 false).1 = illegalAddress)
      ∧ (((getRestartCounter failingSession).1 = 0)
          ∧ (getErrCode (getRestartCounter failingSession).2 false).1 = illegalAddress)
      ∧ (((getTotalOperatingSeconds failingSession).1 = 0)
          ∧ (getErrCode (getTotalOperatingSeconds failingSession).2 false).1 = illegalAddress)
      ∧ (((getErrorCounter failingSession).1 = 0)
          ∧ (getErrCode (getErrorCounter failingSession).2 false).1 = illegalAddress)
      ∧ (((getHomeTotalPower failingSession).1 = 0)
          ∧ (getErrCode (getHomeTotalPower failingSession).2 false).1 = illegalAddress)
      ∧ (((getVendorName failingSession).1 = [])
          ∧ (getErrCode (getVendorName failingSession).2 false).1 = illegalAddress)
      ∧ (((getProductName failingSession).1 = [])
          ∧ (getErrCode (getProductName failingSession).2 false).1 = illegalAddress)
      ∧ (((getSerialNumber failingSession).1 = [])
          ∧ (getErrCode (getSerialNumber failingSession).2 false).1 = illegalAddress) :=
  read_failure_returns_sentinel failingSession illegalAddress rfl (by decide)

/-- C7 (code evaluated at the failing input): with every read answered by an error code and
the uninitialised locals holding stale stack content, `getRelaisConfiguration(0)`,
`getError(0)` and `getRelaisOperatingTime()` return that stale content, not zeros; the
error code is recorded as last status. -/
theorem composite_failure_returns_stale_record :
    (getRelaisConfiguration deadBusSession 0
        staleRelaisConfiguration).map Prod.fst = some staleRelaisConfiguration
      ∧ ((getRelaisConfiguration deadBusSession 0
        staleRelaisConfiguration).map fun res => res.1.ActualPower) ≠ some 0
      ∧ ((getRelaisConfiguration deadBusSession 0
        staleRelaisConfiguration).map fun res => (getErrCode res.2 false).1)
          = some illegalAddress
      ∧ (getError deadBusSession 0
        staleErrorData).map Prod.fst = some staleErrorData
      ∧ ((getError deadBusSession 0
        staleErrorData).map fun res => res.1.ErrorCode) ≠ some 0
      ∧ (getRelaisOperatingTime deadBusSession
        staleRelaisOperatingTime).1 = staleRelaisOperatingTime
      ∧ (getRelaisOperatingTime deadBusSession
        staleRelaisOperatingTime).1.OperatingSeconds1 ≠ 0 := by
  decide

/-- C8: when the transport read succeeds, whatever the prior status of the session,
`getErrCode(false)` afterwards returns success and the value returned is the decode of
the response words: word 0 unchanged for the unsigned 16-bit reads, word 0 as twos
complement for the signed 16-bit reads (`0x8000` gives `-32768`), `getModbusUint32` or
`getModbusInt32` of words 0..1 for the 32-bit reads, `getModbusString32` of words 0..15
for the text reads. -/
theorem read_success_decodes (s : Session) (w : Nat)
    (hok : s._node.nextReply.code = ku8MBSuccess) (hw : w < 65536) :
    (((getManufacturerId s).1 = s._node.nextReply.buffer 0)
          ∧ (getErrCode (getManufacturerId s).2 false).1 = ku8MBSuccess)
      ∧ (((getProductId s).1 = s._node.nextReply.buffer 0)
          ∧ (getErrCode (getProductId s).2 false).1 = ku8MBSuccess)
      ∧ (((getProductVersion s).1 = s._node.nextReply.buffer 0)
          ∧ (getErrCode (getProductVersion s).2 false).1 = ku8MBSuccess)
      ∧ (((getFirmwareVersion s).1 = s._node.nextReply.buffer 0)
          ∧ (getErrCode (getFirmwareVersion s).2 false).1 = ku8MBSuccess)
      ∧ (((getRelaisCount s).1 = s._node.nextReply.buffer 0)
          ∧ (getErrCode (getRelaisCount s).2 false).1 = ku8MBSuccess)
      ∧ (((getTemperatureMinValue s).1 = s._node.nextReply.buffer 0)
          ∧ (getErrCode (getTemperatureMinValue s).2 false).1 = ku8MBSuccess)
      ∧ (((getTemperatureMaxValue s).1 = s._node.nextReply.buffer 0)
          ∧ (getErrCode (getTemperatureMaxValue s).2 false).1 = ku8MBSuccess)
      ∧ (((getTemperatureNominalValue s).1 = s._node.nextReply.buffer 0)
          ∧ (getErrCode (getTemperatureNominalValue s).2 false).1 = ku8MBSuccess)
      ∧ (((getRelaisStatus s).1 = s._node.nextReply.buffer 0)
          ∧ (getErrCode (getRelaisStatus s).2 false).1 = ku8MBSuccess)
      ∧ (((getPowerNominalValue s).1 = toInt16 (s._node.nextReply.buffer 0))
          ∧ (getErrCode (getPowerNominalValue s).2 false).1 = ku8MBSuccess)
      ∧ (((getActualTemperaturePCB s).1 = toInt16 (s._node.nextReply.buffer 0))
          ∧ (getErrCode (getActualTemperaturePCB s).2 false).1 = ku8MBSuccess)
      ∧ (((getUserTemperatureNominal s).1 = toInt16 (s._node.nextReply.buffer 0))
          ∧ (getErrCode (getUserTemperatureNominal s).2 false).1 = ku8MBSuccess)
      ∧ (((getActualTemperatureBoiler s).1 = toInt16 (s._node.nextReply.buffer 0))
          ∧ (getErrCode (getActualTemperatureBoiler s).2 false).1 = ku8MBSuccess)
      ∧ (((getActualTemperatureExternalSensor1 s).1 = toInt16 (s._node.nextReply.buffer 0))
          ∧ (getErrCode (getActualTemperatureExternalSensor1 s).2 false).1 = ku8MBSuccess)
      ∧ (((getActualTemperatureExternalSensor2 s).1 = toInt16 (s._node.nextReply.buffer 0))
          ∧ (getErrCode (getActualTemperatureExternalSensor2 s).2 false).1 = ku8MBSuccess)
      ∧ (((getProductionDate s).1 = getModbusUint32 [s._node.nextReply.buffer 0,
          s._node.nextReply.buffer 1])
          ∧ (getErrCode (getProductionDate s).2 false).1 = ku8MBSuccess)
      ∧ (((getRestartCounter s).1 = getModbusUint32 [s._node.nextReply.buffer 0,
          s._node.nextReply.buffer 1])
          ∧ (getErrCode (getRestartCounter s).2 false).1 = ku8MBSuccess)
      ∧ (((getTotalOperatingSeconds s).1 = getModbusUint32 [s._node.nextReply.buffer 0,
          s._node.nextReply.buffer 1])
          ∧ (getErrCode (getTotalOperatingSeconds s).2 false).1 = ku8MBSuccess)
      ∧ (((getErrorCounter s).1 = getModbusUint32 [s._node.nextReply.buffer 0,
          s._node.nextReply.buffer 1])
          ∧ (getErrCode (getErrorCounter s).2 false).1 = ku8MBSuccess)
      ∧ (((getHomeTotalPower s).1 = getModbusInt32 [s._node.nextReply.buffer 0, s._node.nextReply.buffer 1])
          ∧ (getErrCode (getHomeTotalPower s).2 false).1 = ku8MBSuccess)
      ∧ (((getVendorName s).1 = getModbusString32 ((List.range 16).map s._node.nextReply.buffer))
          ∧ (getErrCode (getVendorName s).2 false).1 = ku8MBSuccess)
      ∧ (((getProductName s).1 = getModbusString32 ((List.range 16).map s._node.nextReply.buffer))
          ∧ (getErrCode (getProductName s).2 false).1 = ku8MBSuccess)
      ∧ (((getSerialNumber s).1 = getModbusString32 ((List.range 16).map s._node.nextReply.buffer))
          ∧ (getErrCode (getSerialNumber s).2 false).1 = ku8MBSuccess)
      ∧ toInt16 w = (if w < 32768 then (w : Int) else (w : Int) - 65536)
      ∧ toInt16 0x8000 = -32768 := by
  have hmod : w % 65536 = w := Nat.mod_eq_of_lt hw
  refine ⟨?_, ?_, ?_, ?_, ?_, ?_, ?_, ?_, ?_, ?_, ?_, ?_,
      ?_, ?_, ?_, ?_, ?_, ?_, ?_, ?_, ?_, ?_, ?_, ?_, by decide⟩
  rotate_right
  · simp only [toInt16, hmod]
  all_goals
    simp [getManufacturerId, getProductId, getProductVersion, getFirmwareVersion,
      getRelaisCount, getTemperatureMinValue, getTemperatureMaxValue, getTemperatureNominalValue,
      getRelaisStatus, getPowerNominalValue, getActualTemperaturePCB, getUserTemperatureNominal,
      getActualTemperatureBoiler, getActualTemperatureExternalSensor1,
      getActualTemperatureExternalSensor2, getProductionDate, getRestartCounter,
      getTotalOperatingSeconds, getErrorCounter, getHomeTotalPower, getVendorName, getProductName,
      getSerialNumber, hok, getErrCode, List.range, List.range.loop]

theorem read_success_decodes_witness :
    (((getManufacturerId priorFailureSession).1 = priorFailureSession._node.nextReply.buffer 0)
          ∧ (getErrCode (getManufacturerId priorFailureSession).2 false).1 = ku8MBSuccess)
      ∧ (((getProductId priorFailureSession).1 = priorFailureSession._node.nextReply.buffer 0)
          ∧ (getErrCode (getProductId priorFailureSession).2 false).1 = ku8MBSuccess)
      ∧ (((getProductVersion priorFailureSession).1 = priorFailureSession._node.nextReply.buffer 0)
          ∧ (getErrCode (getProductVersion priorFailureSession).2 false).1 = ku8MBSuccess)
      ∧ (((getFirmwareVersion priorFailureSession).1 = priorFailureSession._node.nextReply.buffer 0)
          ∧ (getErrCode (getFirmwareVersion priorFailureSession).2 false).1 = ku8MBSuccess)
      ∧ (((getRelaisCount priorFailureSession).1 = priorFailureSession._node.nextReply.buffer 0)
          ∧ (getErrCode (getRelaisCount priorFailureSession).2 false).1 = ku8MBSuccess)
      ∧ (((getTemperatureMinValue priorFailureSession).1 = priorFailureSession._node.nextReply.buffer 0)
          ∧ (getErrCode (getTemperatureMinValue priorFailureSession).2 false).1 = ku8MBSuccess)
      ∧ (((getTemperatureMaxValue priorFailureSession).1 = priorFailureSession._node.nextReply.buffer 0)
          ∧ (getErrCode (getTemperatureMaxValue priorFailureSession).2 false).1 = ku8MBSuccess)
      ∧ (((getTemperatureNominalValue priorFailureSession).1 = priorFailureSession._node.nextReply.buffer 0)
          ∧ (getErrCode (getTemperatureNominalValue priorFailureSession).2 false).1 = ku8MBSuccess)
      ∧ (((getRelaisStatus priorFailureSession).1 = priorFailureSession._node.nextReply.buffer 0)
          ∧ (getErrCode (getRelaisStatus priorFailureSession).2 false).1 = ku8MBSuccess)
      ∧ (((getPowerNominalValue priorFailureSession).1 = toInt16 (priorFailureSession._node.nextReply.buffer 0))
          ∧ (getErrCode (getPowerNominalValue priorFailureSession).2 false).1 = ku8MBSuccess)
      ∧ (((getActualTemperaturePCB priorFailureSession).1 = toInt16 (priorFailureSession._node.nextReply.buffer 0))
          ∧ (getErrCode (getActualTemperaturePCB priorFailureSession).2 false).1 = ku8MBSuccess)
      ∧ (((getUserTemperatureNominal priorFailureSession).1 = toInt16 (priorFailureSession._node.nextReply.buffer 0))
          ∧ (getErrCode (getUserTemperatureNominal priorFailureSession).2 false).1 = ku8MBSuccess)
      ∧ (((getActualTemperatureBoiler priorFailureSession).1 = toInt16 (priorFailureSession._node.nextReply.buffer 0))
          ∧ (getErrCode (getActualTemperatureBoiler priorFailureSession).2 false).1 = ku8MBSuccess)
      ∧ (((getActualTemperatureExternalSensor1 priorFailureSession).1 = toInt16 (priorFailureSession._node.nextReply.buffer 0))
          ∧ (getErrCode (getActualTemperatureExternalSensor1 priorFailureSession).2 false).1 = ku8MBSuccess)
      ∧ (((getActualTemperatureExternalSensor2 priorFailureSession).1 = toInt16 (priorFailureSession._node.nextReply.buffer 0))
          ∧ (getErrCode (getActualTemperatureExternalSensor2 priorFailureSession).2 false).1 = ku8MBSuccess)
      ∧ (((getProductionDate priorFailureSession).1 = getModbusUint32 [priorFailureSession._node.nextReply.buffer 0,
          priorFailureSession._node.nextReply.buffer 1])
          ∧ (getErrCode (getProductionDate priorFailureSession).2 false).1 = ku8MBSuccess)
      ∧ (((getRestartCounter priorFailureSession).1 = getModbusUint32 [priorFailureSession._node.nextReply.buffer 0,
          priorFailureSession._node.nextReply.buffer 1])
          ∧ (getErrCode (getRestartCounter priorFailureSession).2 false).1 = ku8MBSuccess)
      ∧ (((getTotalOperatingSeconds priorFailureSession).1 = getModbusUint32 [priorFailureSession._node.nextReply.buffer 0,
          priorFailureSession._node.nextReply.buffer 1])
          ∧ (getErrCode (getTotalOperatingSeconds priorFailureSession).2 false).1 = ku8MBSuccess)
      ∧ (((getErrorCounter priorFailureSession).1 = getModbusUint32 [priorFailureSession._node.nextReply.buffer 0,
          priorFailureSession._node.nextReply.buffer 1])
          ∧ (getErrCode (getErrorCounter priorFailureSession).2 false).1 = ku8MBSuccess)
      ∧ (((getHomeTotalPower priorFailureSession).1 = getModbusInt32 [priorFailureSession._node.nextReply.buffer 0, priorFailureSession._node.nextReply.buffer 1])
          ∧ (getErrCode (getHomeTotalPower priorFailureSession).2 false).1 = ku8MBSuccess)
      ∧ (((getVendorName priorFailureSession).1 = getModbusString32 ((List.range 16).map priorFailureSession._node.nextReply.buffer))
          ∧ (getErrCode (getVendorName priorFailureSession).2 false).1 = ku8MBSuccess)
      ∧ (((getProductName priorFailureSession).1 = getModbusString32 ((List.range 16).map priorFailureSession._node.nextReply.buffer))
          ∧ (getErrCode (getProductName priorFailureSession).2 false).1 = ku8MBSuccess)
      ∧ (((getSerialNumber priorFailureSession).1 = getModbusString32 ((List.range 16).map priorFailureSession._node.nextReply.buffer))
          ∧ (getErrCode (getSerialNumber priorFailureSession).2 false).1 = ku8MBSuccess)
      ∧ toInt16 0x8000 = (if 0x8000 < 32768 then (0x8000 : Int) else (0x8000 : Int) - 65536)
      ∧ toInt16 0x8000 = -32768 :=
  read_success_decodes priorFailureSession 0x8000 rfl (by decide)

/-- C9: for every write operation, every argument value and every transport result code
`c`, the operation issues exactly one transport write, returns `c`, and `getErrCode(false)`
afterwards returns `c`. Relay indices range over the three entries of
`RegisterRelaisConfiguration`. -/
theorem write_returns_transport_code (s : Session) (c v : Nat) (iv r : Int)
    (hc : s._node.nextReply.code = c) (hr : 0 ≤ r ∧ r < 3) :
    ((setTemperatureMinValue s v).1 = c ∧ (getErrCode (setTemperatureMinValue s v).2 false).1 = c
        ∧ ∃ a q ws, (setTemperatureMinValue s v).2._node.issued = s._node.issued
            ++ [Request.write a q ws])
      ∧ ((setTemperatureMaxValue s v).1 = c ∧ (getErrCode (setTemperatureMaxValue s v).2 false).1 = c
        ∧ ∃ a q ws, (setTemperatureMaxValue s v).2._node.issued = s._node.issued
            ++ [Request.write a q ws])
      ∧ ((setTemperatureNominalValue s v).1 = c ∧ (getErrCode (setTemperatureNominalValue s v).2 false).1 = c
        ∧ ∃ a q ws, (setTemperatureNominalValue s v).2._node.issued = s._node.issued
            ++ [Request.write a q ws])
      ∧ ((setPowerNominalValue s iv).1 = c ∧ (getErrCode (setPowerNominalValue s iv).2 false).1 = c
        ∧ ∃ a q ws, (setPowerNominalValue s iv).2._node.issued = s._node.issued
            ++ [Request.write a q ws])
      ∧ ((setHomeTotalPower s iv).1 = c ∧ (getErrCode (setHomeTotalPower s iv).2 false).1 = c
        ∧ ∃ a q ws, (setHomeTotalPower s iv).2._node.issued = s._node.issued
            ++ [Request.write a q ws])
      ∧ (∃ res, setRelaisMinOnTime s r v = some res ∧ res.1 = c ∧ (getErrCode res.2 false).1 = c
        ∧ ∃ a q ws, res.2._node.issued = s._node.issued ++ [Request.write a q ws])
      ∧ (∃ res, setRelaisMinOffTime s r v = some res ∧ res.1 = c ∧ (getErrCode res.2 false).1 = c
        ∧ ∃ a q ws, res.2._node.issued = s._node.issued ++ [Request.write a q ws]) := by
  subst hc
  have hcases : r = 0 ∨ r = 1 ∨ r = 2 := by omega
  refine ⟨?_, ?_, ?_, ?_, ?_, ?_, ?_⟩
  · exact ⟨rfl, rfl, _, _, _, rfl⟩
  · exact ⟨rfl, rfl, _, _, _, rfl⟩
  · exact ⟨rfl, rfl, _, _, _, rfl⟩
  · exact ⟨rfl, rfl, _, _, _, rfl⟩
  · exact ⟨rfl, rfl, _, _, _, rfl⟩
  · rcases hcases with h | h | h <;> subst h <;>
      exact ⟨_, rfl, rfl, rfl, _, _, _, rfl⟩
  · rcases hcases with h | h | h <;> subst h <;>
      exact ⟨_, rfl, rfl, rfl, _, _, _, rfl⟩

theorem write_returns_transport_code_witness :
    ((setTemperatureMinValue illegalValueSession 0xFFFF).1 = 3 ∧ (getErrCode (setTemperatureMinValue illegalValueSession 0xFFFF).2 false).1 = 3
        ∧ ∃ a q ws, (setTemperatureMinValue illegalValueSession 0xFFFF).2._node.issued = illegalValueSession._node.issued
            ++ [Request.write a q ws])
      ∧ ((setTemperatureMaxValue illegalValueSession 0xFFFF).1 = 3 ∧ (getErrCode (setTemperatureMaxValue illegalValueSession 0xFFFF).2 false).1 = 3
        ∧ ∃ a q ws, (setTemperatureMaxValue illegalValueSession 0xFFFF).2._node.issued = illegalValueSession._node.issued
            ++ [Request.write a q ws])
      ∧ ((setTemperatureNominalValue illegalValueSession 0xFFFF).1 = 3 ∧ (getErrCode (setTemperatureNominalValue illegalValueSession 0xFFFF).2 false).1 = 3
        ∧ ∃ a q ws, (setTemperatureNominalValue illegalValueSession 0xFFFF).2._node.issued = illegalValueSession._node.issued
            ++ [Request.write a q ws])
      ∧ ((setPowerNominalValue illegalValueSession (-1)).1 = 3 ∧ (getErrCode (setPowerNominalValue illegalValueSession (-1)).2 false).1 = 3
        ∧ ∃ a q ws, (setPowerNominalValue illegalValueSession (-1)).2._node.issued = illegalValueSession._node.issued
            ++ [Request.write a q ws])
      ∧ ((setHomeTotalPower illegalValueSession (-1)).1 = 3 ∧ (getErrCode (setHomeTotalPower illegalValueSession (-1)).2 false).1 = 3
        ∧ ∃ a q ws, (setHomeTotalPower illegalValueSession (-1)).2._node.issued = illegalValueSession._node.issued
            ++ [Request.write a q ws])
      ∧ (∃ res, setRelaisMinOnTime illegalValueSession 2 0xFFFF = some res ∧ res.1 = 3 ∧ (getErrCode res.2 false).1 = 3
        ∧ ∃ a q ws, res.2._node.issued = illegalValueSession._node.issued ++ [Request.write a q ws])
      ∧ (∃ res, setRelaisMinOffTime illegalValueSession 2 0xFFFF = some res ∧ res.1 = 3 ∧ (getErrCode res.2 false).1 = 3
        ∧ ∃ a q ws, res.2._node.issued = illegalValueSession._node.issued
            ++ [Request.write a q ws]) :=
  write_returns_transport_code illegalValueSession 3 0xFFFF (-1) 2 rfl (by decide)

/-- C10: `getErrCode(false)` returns the status and leaves the session unchanged, so two
consecutive calls return the same value; `getErrCode(true)` returns the status it found
and a following `getErrCode(false)` returns success; `clearErrCode()` sets the status to
success whatever it was, and neither accessor touches the rest of the session. -/
theorem getErrCode_clearErrCode (s : Session) :
    (getErrCode s false).1 = s._result
      ∧ (getErrCode s false).2 = s
      ∧ (getErrCode (getErrCode s false).2 false).1 = (getErrCode s false).1
      ∧ (getErrCode s true).1 = s._result
      ∧ (getErrCode (getErrCode s true).2 false).1 = ku8MBSuccess
      ∧ (clearErrCode s)._result = ku8MBSuccess
      ∧ (clearErrCode s)._node = s._node
      ∧ (getErrCode s true).2._node = s._node :=
  ⟨rfl, rfl, rfl, rfl, rfl, rfl, rfl, rfl⟩

/-- C11: for every relay index `r` in 0..2 and every 16-bit value `v`,
`setRelaisMinOnTime(r, v)` issues one write of the single word `v` at
`0x1000 + 0x20*r + 5` and `setRelaisMinOffTime(r, v)` one write of the single word `v` at
`0x1000 + 0x20*r + 6`; `getRelaisConfiguration(r)` reads 7 words starting at
`0x1000 + 0x20*r` and decodes response words 5 and 6, the registers at those two
addresses, as `MinOnTime` and `MinOffTime`. -/
theorem relais_min_time_registers (s s' : Session) (r : Int) (v : Nat)
    (g : RelaisConfigurationData_t)
    (hr : 0 ≤ r ∧ r < 3) (_hv : v < 65536)
    (hok : s'._node.nextReply.code = ku8MBSuccess) :
    (∃ res, setRelaisMinOnTime s r v = some res
        ∧ res.2._node.issued
            = s._node.issued ++ [Request.write (0x1000 + 0x20 * r.toNat + 5) 1 [v]])
      ∧ (∃ res, setRelaisMinOffTime s r v = some res
        ∧ res.2._node.issued
            = s._node.issued ++ [Request.write (0x1000 + 0x20 * r.toNat + 6) 1 [v]])
      ∧ (∃ res, getRelaisConfiguration s' r g = some res
        ∧ res.2._node.issued = s'._node.issued ++ [Request.read (0x1000 + 0x20 * r.toNat) 7]
        ∧ res.1.MinOnTime = s'._node.nextReply.buffer 5
        ∧ res.1.MinOffTime = s'._node.nextReply.buffer 6)
      ∧ (setRelaisMinOnTime s 0 v).map (fun res => res.2._node.issued)
          = some (s._node.issued ++ [Request.write 0x1005 1 [v]])
      ∧ (setRelaisMinOnTime s 1 v).map (fun res => res.2._node.issued)
          = some (s._node.issued ++ [Request.write 0x1025 1 [v]])
      ∧ (setRelaisMinOnTime s 2 v).map (fun res => res.2._node.issued)
          = some (s._node.issued ++ [Request.write 0x1045 1 [v]])
      ∧ (setRelaisMinOffTime s 0 v).map (fun res => res.2._node.issued)
          = some (s._node.issued ++ [Request.write 0x1006 1 [v]])
      ∧ (setRelaisMinOffTime s 1 v).map (fun res => res.2._node.issued)
          = some (s._node.issued ++ [Request.write 0x1026 1 [v]])
      ∧ (setRelaisMinOffTime s 2 v).map (fun res => res.2._node.issued)
          = some (s._node.issued ++ [Request.write 0x1046 1 [v]]) := by
  have hsub := subscript_RegisterRelaisConfiguration r hr
  have hcases : r = 0 ∨ r = 1 ∨ r = 2 := by omega
  refine ⟨?_, ?_, ?_, ?_, ?_, ?_, ?_, ?_, ?_⟩
  · rcases hcases with h | h | h <;> subst h <;> exact ⟨_, rfl, rfl⟩
  · rcases hcases with h | h | h <;> subst h <;> exact ⟨_, rfl, rfl⟩
  · simp only [getRelaisConfiguration, hsub, readInto_result, hok, if_true]
    exact ⟨_, rfl, rfl, rfl, rfl⟩
  all_goals rfl

theorem relais_min_time_registers_witness :
    (∃ res, setRelaisMinOnTime illegalValueSession 1 60 = some res
        ∧ res.2._node.issued
            = illegalValueSession._node.issued
                ++ [Request.write (0x1000 + 0x20 * (1 : Int).toNat + 5) 1 [60]])
      ∧ (∃ res, setRelaisMinOffTime illegalValueSession 1 60 = some res
        ∧ res.2._node.issued
            = illegalValueSession._node.issued
                ++ [Request.write (0x1000 + 0x20 * (1 : Int).toNat + 6) 1 [60]])
      ∧ (∃ res, getRelaisConfiguration relaisConfigurationSession 1 staleRelaisConfiguration
            = some res
        ∧ res.2._node.issued
            = relaisConfigurationSession._node.issued
                ++ [Request.read (0x1000 + 0x20 * (1 : Int).toNat) 7]
        ∧ res.1.MinOnTime = relaisConfigurationSession._node.nextReply.buffer 5
        ∧ res.1.MinOffTime = relaisConfigurationSession._node.nextReply.buffer 6)
      ∧ (setRelaisMinOnTime illegalValueSession 0 60).map (fun res => res.2._node.issued)
          = some (illegalValueSession._node.issued ++ [Request.write 0x1005 1 [60]])
      ∧ (setRelaisMinOnTime illegalValueSession 1 60).map (fun res => res.2._node.issued)
          = some (illegalValueSession._node.issued ++ [Request.write 0x1025 1 [60]])
      ∧ (setRelaisMinOnTime illegalValueSession 2 60).map (fun res => res.2._node.issued)
          = some (illegalValueSession._node.issued ++ [Request.write 0x1045 1 [60]])
      ∧ (setRelaisMinOffTime illegalValueSession 0 60).map (fun res => res.2._node.issued)
          = some (illegalValueSession._node.issued ++ [Request.write 0x1006 1 [60]])
      ∧ (setRelaisMinOffTime illegalValueSession 1 60).map (fun res => res.2._node.issued)
          = some (illegalValueSession._node.issued ++ [Request.write 0x1026 1 [60]])
      ∧ (setRelaisMinOffTime illegalValueSession 2 60).map (fun res => res.2._node.issued)
          = some (illegalValueSession._node.issued ++ [Request.write 0x1046 1 [60]]) :=
  relais_min_time_registers illegalValueSession relaisConfigurationSession 1 60
    staleRelaisConfiguration (by decide) (by decide) rfl

/-- C12: the scalar writes hand the transport the identity encoding of their argument
at the catalog address. The three temperature writes send the one word `v` at `0x1209`,
`0x120A`, `0x120B`; `setPowerNominalValue(p)` sends at `0x1300` the one word that is the
16-bit twos complement pattern of `p` (`-1` gives `0xFFFF`); `setHomeTotalPower(h)` sends
at `0x1301` the upper and then the lower 16 bits of the 32-bit twos complement pattern of
`h`. -/
theorem scalar_writes_encode (s : Session) (v : Nat) (pw hv : Int)
    (_hv : v < 65536) (hpw : -32768 ≤ pw ∧ pw ≤ 32767)
    (hhv : -2147483648 ≤ hv ∧ hv ≤ 2147483647) :
    (setTemperatureMinValue s v).2._node.issued
        = s._node.issued ++ [Request.write 0x1209 1 [v]]
      ∧ (setTemperatureMaxValue s v).2._node.issued
        = s._node.issued ++ [Request.write 0x120A 1 [v]]
      ∧ (setTemperatureNominalValue s v).2._node.issued
        = s._node.issued ++ [Request.write 0x120B 1 [v]]
      ∧ (setPowerNominalValue s pw).2._node.issued
        = s._node.issued ++ [Request.write 0x1300 1 [toUint16 pw]]
      ∧ ((toUint16 pw : Nat) : Int) = (if 0 ≤ pw then pw else pw + 65536)
      ∧ toInt16 (toUint16 pw) = pw
      ∧ (setPowerNominalValue s (-1)).2._node.issued
        = s._node.issued ++ [Request.write 0x1300 1 [0xFFFF]]
      ∧ (setHomeTotalPower s hv).2._node.issued
        = s._node.issued
            ++ [Request.write 0x1301 2 [toUint32 hv / 65536, toUint32 hv % 65536]]
      ∧ ((toUint32 hv : Nat) : Int) = (if 0 ≤ hv then hv else hv + 4294967296)
      ∧ toInt32 (toUint32 hv) = hv := by
  have h16 := toUint16_eq pw hpw
  have h32 := toUint32_eq hv hhv
  refine ⟨rfl, rfl, rfl, rfl, h16.1, ?_, rfl, ?_, h32.1, ?_⟩
  · have h1 := h16.1
    have h2 := h16.2
    unfold toInt16
    split at h1 <;> split <;> omega
  · have h2 := h32.2
    simp only [setHomeTotalPower, writeFrom_issued, RegisterHomeTotalPower,
      ModbusMaster.setTransmitBuffer, List.range, List.range.loop, List.map, highWord, lowWord]
    have e1 : toUint32 hv % 4294967296 / 65536 % 65536 = toUint32 hv / 65536 := by omega
    have e2 : toUint32 hv % 4294967296 % 65536 = toUint32 hv % 65536 := by omega
    simp [e1, e2]
  · have h1 := h32.1
    have h2 := h32.2
    unfold toInt32
    split at h1 <;> split <;> omega

theorem scalar_writes_encode_witness :
    (setTemperatureMinValue illegalValueSession 70).2._node.issued
        = illegalValueSession._node.issued ++ [Request.write 0x1209 1 [70]]
      ∧ (setTemperatureMaxValue illegalValueSession 70).2._node.issued
        = illegalValueSession._node.issued ++ [Request.write 0x120A 1 [70]]
      ∧ (setTemperatureNominalValue illegalValueSession 70).2._node.issued
        = illegalValueSession._node.issued ++ [Request.write 0x120B 1 [70]]
      ∧ (setPowerNominalValue illegalValueSession (-2)).2._node.issued
        = illegalValueSession._node.issued ++ [Request.write 0x1300 1 [toUint16 (-2)]]
      ∧ ((toUint16 (-2) : Nat) : Int) = (if 0 ≤ (-2) then (-2) else (-2) + 65536)
      ∧ toInt16 (toUint16 (-2)) = (-2)
      ∧ (setPowerNominalValue illegalValueSession (-1)).2._node.issued
        = illegalValueSession._node.issued ++ [Request.write 0x1300 1 [0xFFFF]]
      ∧ (setHomeTotalPower illegalValueSession (-3)).2._node.issued
        = illegalValueSession._node.issued
            ++ [Request.write 0x1301 2 [toUint32 (-3) / 65536, toUint32 (-3) % 65536]]
      ∧ ((toUint32 (-3) : Nat) : Int) = (if 0 ≤ (-3) then (-3) else (-3) + 4294967296)
      ∧ toInt32 (toUint32 (-3)) = (-3) :=
  scalar_writes_encode illegalValueSession 70 (-2) (-3) (by decide) (by decide) (by decide)

/-- C13: every scalar and text read issues exactly one transport read, whose address and
word count are the row of the register map: one word for the 16-bit reads, two words for
the 32-bit reads, sixteen words for the text reads. -/
theorem read_issues_register_map_row (s : Session) :
    (getManufacturerId s).2._node.issued = s._node.issued ++ [Request.read 0x2000 1]
      ∧ (getProductId s).2._node.issued = s._node.issued ++ [Request.read 0x2001 1]
      ∧ (getProductVersion s).2._node.issued = s._node.issued ++ [Request.read 0x2002 1]
      ∧ (getFirmwareVersion s).2._node.issued = s._node.issued ++ [Request.read 0x2003 1]
      ∧ (getVendorName s).2._node.issued = s._node.issued ++ [Request.read 0x2004 16]
      ∧ (getProductName s).2._node.issued = s._node.issued ++ [Request.read 0x2014 16]
      ∧ (getSerialNumber s).2._node.issued = s._node.issued ++ [Request.read 0x2024 16]
      ∧ (getProductionDate s).2._node.issued = s._node.issued ++ [Request.read 0x2034 2]
      ∧ (getRelaisCount s).2._node.issued = s._node.issued ++ [Request.read 0x1204 1]
      ∧ (getTemperatureMinValue s).2._node.issued = s._node.issued ++ [Request.read 0x1209 1]
      ∧ (getTemperatureMaxValue s).2._node.issued = s._node.issued ++ [Request.read 0x120A 1]
      ∧ (getTemperatureNominalValue s).2._node.issued = s._node.issued ++ [Request.read 0x120B 1]
      ∧ (getPowerNominalValue s).2._node.issued = s._node.issued ++ [Request.read 0x1300 1]
      ∧ (getHomeTotalPower s).2._node.issued = s._node.issued ++ [Request.read 0x1301 2]
      ∧ (getRestartCounter s).2._node.issued = s._node.issued ++ [Request.read 0x1202 2]
      ∧ (getActualTemperaturePCB s).2._node.issued = s._node.issued ++ [Request.read 0x1205 1]
      ∧ (getTotalOperatingSeconds s).2._node.issued = s._node.issued ++ [Request.read 0x1400 2]
      ∧ (getErrorCounter s).2._node.issued = s._node.issued ++ [Request.read 0x1402 2]
      ∧ (getActualTemperatureBoiler s).2._node.issued = s._node.issued ++ [Request.read 0x1404 1]
      ∧ (getActualTemperatureExternalSensor1 s).2._node.issued = s._node.issued
          ++ [Request.read 0x1405 1]
      ∧ (getActualTemperatureExternalSensor2 s).2._node.issued = s._node.issued
          ++ [Request.read 0x1406 1]
      ∧ (getUserTemperatureNominal s).2._node.issued = s._node.issued ++ [Request.read 0x1407 1]
      ∧ (getRelaisStatus s).2._node.issued = s._node.issued ++ [Request.read 0x1408 1] := by
  refine ⟨?_, ?_, ?_, ?_, ?_, ?_, ?_, ?_, ?_, ?_, ?_, ?_,
    ?_, ?_, ?_, ?_, ?_, ?_, ?_, ?_, ?_, ?_, ?_⟩ <;>
    by_cases h : s._node.nextReply.code = ku8MBSuccess <;>
    simp [getManufacturerId, getProductId, getProductVersion, getFirmwareVersion,
      getVendorName, getProductName, getSerialNumber, getProductionDate, getRelaisCount,
      getTemperatureMinValue, getTemperatureMaxValue, getTemperatureNominalValue,
      getPowerNominalValue, getHomeTotalPower, getRestartCounter, getActualTemperaturePCB,
      getTotalOperatingSeconds, getErrorCounter, getActualTemperatureBoiler,
      getActualTemperatureExternalSensor1, getActualTemperatureExternalSensor2,
      getUserTemperatureNominal, getRelaisStatus, RegisterManufacturerId, RegisterProductId,
      RegisterProductVersion, RegisterFirmwareVersion, RegisterVendorName, RegisterProductName,
      RegisterSerialNumber, RegisterProductionDate, RegisterRelaisCount,
      RegisterTemperatureMinValue, RegisterTemperatureMaxValue, RegisterTemperatureNominalValue,
      RegisterPowerNominalValue, RegisterHomeTotalPower, RegisterUserTemperatureNominal,
      RegisterRestartCounter, RegisterActualTemperaturePCB, RegisterTotalOperatingSeconds,
      RegisterErrorCounter, RegisterActualTemperatureBoiler,
      RegisterActualTemperaturExternalSensor1, RegisterActualTemperaturExternalSensor2,
      RegisterRelaisStatus, h]

/-- C14: for every relay index `r` in 0..2, `getRelaisConfiguration(r)` issues exactly one
read of 7 words at `0x1000 + 0x20*r`; when that read succeeds with response words
`w0..w6` it returns `ActualPower = w0`, `OperatingSeconds = getModbusUint32 [w1, w2]`,
`SwitchingCycles = getModbusUint32 [w3, w4]`, `MinOnTime = w5`, `MinOffTime = w6`
(otherwise the record keeps the content it started with). -/
theorem getRelaisConfiguration_layout (s : Session) (r : Int) (g : RelaisConfigurationData_t)
    (hr : 0 ≤ r ∧ r < 3) :
    ∃ res, getRelaisConfiguration s r g = some res
      ∧ res.2._node.issued = s._node.issued ++ [Request.read (0x1000 + 0x20 * r.toNat) 7]
      ∧ res.1 = (if s._node.nextReply.code = ku8MBSuccess then
            { ActualPower := s._node.nextReply.buffer 0,
              OperatingSeconds := getModbusUint32 [s._node.nextReply.buffer 1,
                  s._node.nextReply.buffer 2],
              SwitchingCycles := getModbusUint32 [s._node.nextReply.buffer 3,
                  s._node.nextReply.buffer 4],
              MinOnTime := s._node.nextReply.buffer 5,
              MinOffTime := s._node.nextReply.buffer 6 }
          else g) := by
  have hsub := subscript_RegisterRelaisConfiguration r hr
  simp only [getRelaisConfiguration, hsub, readInto_result]
  by_cases hok : s._node.nextReply.code = ku8MBSuccess
  · rw [if_pos hok, if_pos hok]
    exact ⟨_, rfl, rfl, rfl⟩
  · rw [if_neg hok, if_neg hok]
    exact ⟨_, rfl, rfl, rfl⟩

theorem getRelaisConfiguration_layout_witness :
    ∃ res, getRelaisConfiguration relaisConfigurationSession (2 : Int) staleRelaisConfiguration = some res
      ∧ res.2._node.issued = relaisConfigurationSession._node.issued
          ++ [Request.read (0x1000 + 0x20 * (2 : Int).toNat) 7]
      ∧ res.1 = (if relaisConfigurationSession._node.nextReply.code = ku8MBSuccess then
            { ActualPower := relaisConfigurationSession._node.nextReply.buffer 0,
              OperatingSeconds := getModbusUint32 [relaisConfigurationSession._node.nextReply.buffer 1,
                  relaisConfigurationSession._node.nextReply.buffer 2],
              SwitchingCycles := getModbusUint32 [relaisConfigurationSession._node.nextReply.buffer 3,
                  relaisConfigurationSession._node.nextReply.buffer 4],
              MinOnTime := relaisConfigurationSession._node.nextReply.buffer 5,
              MinOffTime := relaisConfigurationSession._node.nextReply.buffer 6 }
          else staleRelaisConfiguration) :=
  getRelaisConfiguration_layout relaisConfigurationSession 2 staleRelaisConfiguration
    (by decide)

/-- C15: for every error-log index `i` in 0..9, `getError(i)` issues exactly one read of
4 words at `0x1500 + 4*i`; when that read succeeds with response words `w0..w3` it
returns `OperatingHour = getModbusUint32 [w0, w1]`, `OperatingSecond = w2`,
`ErrorCode = w3` (otherwise the record keeps the content it started with); and for any
two indices `i`, `j` in 0..9, either `i = j` or the two 4-word ranges do not overlap. -/
theorem getError_layout (s : Session) (i j : Int) (g : ErrorData_t)
    (hi : 0 ≤ i ∧ i ≤ 9) (hj : 0 ≤ j ∧ j ≤ 9) :
    (∃ res, getError s i g = some res
        ∧ res.2._node.issued = s._node.issued
            ++ [Request.read (0x1500 + 4 * i.toNat) 4]
        ∧ res.1 = (if s._node.nextReply.code = ku8MBSuccess then
              { OperatingHour := getModbusUint32 [s._node.nextReply.buffer 0,
                  s._node.nextReply.buffer 1],
                OperatingSecond := s._node.nextReply.buffer 2,
                ErrorCode := s._node.nextReply.buffer 3 }
            else g))
      ∧ (∃ ai aj, subscript RegisterErrorData i = some ai
          ∧ subscript RegisterErrorData j = some aj
          ∧ (i = j ∨ ai + 4 ≤ aj ∨ aj + 4 ≤ ai)) := by
  have hsubi := subscript_RegisterErrorData i hi
  have hsubj := subscript_RegisterErrorData j hj
  refine ⟨?_, ⟨_, _, hsubi, hsubj, by omega⟩⟩
  simp only [getError, hsubi, readInto_result]
  by_cases hok : s._node.nextReply.code = ku8MBSuccess
  · rw [if_pos hok, if_pos hok]
    exact ⟨_, rfl, rfl, rfl⟩
  · rw [if_neg hok, if_neg hok]
    exact ⟨_, rfl, rfl, rfl⟩

theorem getError_layout_witness :
    (∃ res, getError errorDataSession (9 : Int) staleErrorData = some res
        ∧ res.2._node.issued = errorDataSession._node.issued
            ++ [Request.read (0x1500 + 4 * (9 : Int).toNat) 4]
        ∧ res.1 = (if errorDataSession._node.nextReply.code = ku8MBSuccess then
              { OperatingHour := getModbusUint32 [errorDataSession._node.nextReply.buffer 0,
                  errorDataSession._node.nextReply.buffer 1],
                OperatingSecond := errorDataSession._node.nextReply.buffer 2,
                ErrorCode := errorDataSession._node.nextReply.buffer 3 }
            else staleErrorData))
      ∧ (∃ ai aj, subscript RegisterErrorData (9 : Int) = some ai
          ∧ subscript RegisterErrorData (0 : Int) = some aj
          ∧ ((9 : Int) = (0 : Int) ∨ ai + 4 ≤ aj ∨ aj + 4 ≤ ai)) :=
  getError_layout errorDataSession 9 0 staleErrorData (by decide) (by decide)

/-- C16: for 16-bit words `w0`, `w1`, `getModbusInt32 [w0, w1]` is the 32-bit pattern of
`getModbusUint32 [w0, w1]` read as twos complement: the unsigned value `u` when
`u < 2^31` and `u - 2^32` otherwise. A successful `getHomeTotalPower` is negative exactly
when bit 15 of response word 0 is set, and `[0xFFFF, 0xFFFF]` decodes to `-1`. -/
theorem getModbusInt32_twos_complement (s : Session) (w0 w1 : Nat)
    (_h0 : w0 < 65536) (_h1 : w1 < 65536)
    (hok : s._node.nextReply.code = ku8MBSuccess) :
    getModbusInt32 [w0, w1]
        = (if getModbusUint32 [w0, w1] < 2147483648 then
            ((getModbusUint32 [w0, w1] : Nat) : Int)
          else ((getModbusUint32 [w0, w1] : Nat) : Int) - 4294967296)
      ∧ toUint32 (getModbusInt32 [w0, w1]) = getModbusUint32 [w0, w1]
      ∧ ((getHomeTotalPower s).1 < 0 ↔ (s._node.nextReply.buffer 0).testBit 15 = true)
      ∧ getModbusInt32 [0xFFFF, 0xFFFF] = -1 := by
  have hu : getModbusUint32 [w0, w1] < 4294967296 := by
    rw [getModbusUint32_pair]
    omega
  refine ⟨?_, ?_, ?_, by decide⟩
  · rw [getModbusInt32_pair]
    unfold toInt32
    rw [Nat.mod_eq_of_lt hu]
  · rw [getModbusInt32_pair]
    unfold toInt32 toUint32
    rw [Nat.mod_eq_of_lt hu]
    split <;> omega
  · have hval : (getHomeTotalPower s).1
        = toInt32 (getModbusUint32
            [s._node.nextReply.buffer 0, s._node.nextReply.buffer 1]) := by
      simp [getHomeTotalPower, hok, getModbusInt32_pair, List.range, List.range.loop]
    rw [hval, getModbusUint32_pair, Nat.testBit_to_div_mod]
    unfold toInt32
    simp only [decide_eq_true_eq]
    split <;> constructor <;> intro h <;> omega

theorem getModbusInt32_twos_complement_witness :
    getModbusInt32 [0x8000, 0x0001]
        = (if getModbusUint32 [0x8000, 0x0001] < 2147483648 then
            ((getModbusUint32 [0x8000, 0x0001] : Nat) : Int)
          else ((getModbusUint32 [0x8000, 0x0001] : Nat) : Int) - 4294967296)
      ∧ toUint32 (getModbusInt32 [0x8000, 0x0001]) = getModbusUint32 [0x8000, 0x0001]
      ∧ ((getHomeTotalPower negativePowerSession).1 < 0
          ↔ (negativePowerSession._node.nextReply.buffer 0).testBit 15 = true)
      ∧ getModbusInt32 [0xFFFF, 0xFFFF] = -1 :=
  getModbusInt32_twos_complement negativePowerSession 0x8000 0x0001
    (by decide) (by decide) rfl

/-- C17: `getRelaisOperatingTime` always issues exactly three reads of 2 words, at
`0x1409`, `0x140B`, `0x140D` in that order, whether or not an earlier one failed; field
`OperatingSeconds(i+1)` is set to `getModbusUint32` of the words of read `i` exactly when
read `i` succeeded; the last status after the call is the result code of the third read
alone, so two failed reads followed by a successful third leave `getErrCode(false)`
reporting success. -/
theorem getRelaisOperatingTime_three_reads (s : Session) (rot : RelaisOperatingTime_t) :
    (getRelaisOperatingTime s rot).2._node.issued
        = s._node.issued
            ++ [Request.read 0x1409 2, Request.read 0x140B 2, Request.read 0x140D 2]
      ∧ (getRelaisOperatingTime s rot).1.OperatingSeconds1
        = (if (s._node.bus (s._node.issued.length)).code = ku8MBSuccess then
            getModbusUint32 [(s._node.bus (s._node.issued.length)).buffer 0,
                (s._node.bus (s._node.issued.length)).buffer 1]
          else rot.OperatingSeconds1)
      ∧ (getRelaisOperatingTime s rot).1.OperatingSeconds2
        = (if (s._node.bus (s._node.issued.length + 1)).code = ku8MBSuccess then
            getModbusUint32 [(s._node.bus (s._node.issued.length + 1)).buffer 0,
                (s._node.bus (s._node.issued.length + 1)).buffer 1]
          else rot.OperatingSeconds2)
      ∧ (getRelaisOperatingTime s rot).1.OperatingSeconds3
        = (if (s._node.bus (s._node.issued.length + 2)).code = ku8MBSuccess then
            getModbusUint32 [(s._node.bus (s._node.issued.length + 2)).buffer 0,
                (s._node.bus (s._node.issued.length + 2)).buffer 1]
          else rot.OperatingSeconds3)
      ∧ (getErrCode (getRelaisOperatingTime s rot).2 false).1
        = (s._node.bus (s._node.issued.length + 2)).code
      ∧ (sessionOn lateSuccessBus)._node.nextReply.code ≠ ku8MBSuccess
      ∧ (getErrCode (getRelaisOperatingTime (sessionOn lateSuccessBus)
            staleRelaisOperatingTime).2 false).1 = ku8MBSuccess
      ∧ (getRelaisOperatingTime (sessionOn lateSuccessBus) staleRelaisOperatingTime).1
          = { staleRelaisOperatingTime with OperatingSeconds3 := 0x00010002 } := by
  refine ⟨?_, ?_, ?_, ?_, ?_, by decide, by decide, by decide⟩ <;>
    by_cases hc0 : (s._node.bus s._node.issued.length).code = ku8MBSuccess <;>
    by_cases hc1 : (s._node.bus (s._node.issued.length + 1)).code = ku8MBSuccess <;>
    by_cases hc2 : (s._node.bus (s._node.issued.length + 2)).code = ku8MBSuccess <;>
    simp [getRelaisOperatingTime, relaisOperatingTimeStep, List.range, List.range.loop,
      RegisterRelaisOperatingTime, readInto, ModbusMaster.readHoldingRegisters,
      ModbusMaster.nextReply, ModbusMaster.getResponseBuffer, copyResponse, getErrCode,
      hc0, hc1, hc2]

end EgoSmartHeaterRS485
